import Mathlib

/-!
Shallow embedding of perccli_status.py: a Nagios-style health-check plugin
for PowerEdge RAID controllers.  JSON documents are modelled by an inductive
type, Python dictionary and list subscription by fallible accessors, and the
two schema adapters (Perccli7Manager, Perccli8Manager) together with the
aggregation in main are translated function by function.
-/

/-- Python exception kinds that the program can raise or catch. -/
inductive PyErr where
  | jsonCommandError (msg : String)
  | keyError
  | typeError
  | indexError
  | attributeError
  | runtimeError (msg : String)
deriving Repr, DecidableEq

/-- JSON values, as produced by json.loads.  Objects keep insertion order. -/
inductive Json where
  | null
  | num (n : Int)
  | str (s : String)
  | arr (xs : List Json)
  | obj (kvs : List (String × Json))
deriving Repr

mutual

/-- Structural equality test for Json values. -/
def Json.beq : Json → Json → Bool
  | .null, .null => true
  | .num a, .num b => a == b
  | .str a, .str b => a == b
  | .arr xs, .arr ys => Json.beqList xs ys
  | .obj xs, .obj ys => Json.beqKvs xs ys
  | _, _ => false

def Json.beqList : List Json → List Json → Bool
  | [], [] => true
  | x :: xs, y :: ys => Json.beq x y && Json.beqList xs ys
  | _, _ => false

def Json.beqKvs : List (String × Json) → List (String × Json) → Bool
  | [], [] => true
  | (k, v) :: xs, (l, w) :: ys => k == l && Json.beq v w && Json.beqKvs xs ys
  | _, _ => false

end

mutual

theorem Json.beq_refl : ∀ a : Json, Json.beq a a = true
  | .null => rfl
  | .num _ => by simp [Json.beq]
  | .str _ => by simp [Json.beq]
  | .arr xs => by simp [Json.beq, Json.beqList_refl xs]
  | .obj kvs => by simp [Json.beq, Json.beqKvs_refl kvs]

theorem Json.beqList_refl : ∀ xs : List Json, Json.beqList xs xs = true
  | [] => rfl
  | x :: xs => by simp [Json.beqList, Json.beq_refl x, Json.beqList_refl xs]

theorem Json.beqKvs_refl : ∀ xs : List (String × Json), Json.beqKvs xs xs = true
  | [] => rfl
  | (k, v) :: xs => by simp [Json.beqKvs, Json.beq_refl v, Json.beqKvs_refl xs]

end

mutual

theorem Json.beq_sound : ∀ a b : Json, Json.beq a b = true → a = b
  | .null, .null, _ => rfl
  | .num _, .num _, h => by simp [Json.beq] at h; simp [h]
  | .str _, .str _, h => by simp [Json.beq] at h; simp [h]
  | .arr xs, .arr ys, h => by rw [Json.beqList_sound xs ys (by simpa [Json.beq] using h)]
  | .obj xs, .obj ys, h => by rw [Json.beqKvs_sound xs ys (by simpa [Json.beq] using h)]
  | .null, .num _, h => nomatch h
  | .null, .str _, h => nomatch h
  | .null, .arr _, h => nomatch h
  | .null, .obj _, h => nomatch h
  | .num _, .null, h => nomatch h
  | .num _, .str _, h => nomatch h
  | .num _, .arr _, h => nomatch h
  | .num _, .obj _, h => nomatch h
  | .str _, .null, h => nomatch h
  | .str _, .num _, h => nomatch h
  | .str _, .arr _, h => nomatch h
  | .str _, .obj _, h => nomatch h
  | .arr _, .null, h => nomatch h
  | .arr _, .num _, h => nomatch h
  | .arr _, .str _, h => nomatch h
  | .arr _, .obj _, h => nomatch h
  | .obj _, .null, h => nomatch h
  | .obj _, .num _, h => nomatch h
  | .obj _, .str _, h => nomatch h
  | .obj _, .arr _, h => nomatch h

theorem Json.beqList_sound : ∀ xs ys : List Json, Json.beqList xs ys = true → xs = ys
  | [], [], _ => rfl
  | x :: xs, y :: ys, h => by
      simp only [Json.beqList, Bool.and_eq_true] at h
      rw [Json.beq_sound x y h.1, Json.beqList_sound xs ys h.2]
  | [], _ :: _, h => nomatch h
  | _ :: _, [], h => nomatch h

theorem Json.beqKvs_sound :
    ∀ xs ys : List (String × Json), Json.beqKvs xs ys = true → xs = ys
  | [], [], _ => rfl
  | (k, v) :: xs, (l, w) :: ys, h => by
      simp only [Json.beqKvs, Bool.and_eq_true] at h
      obtain ⟨⟨hk, hv⟩, ht⟩ := h
      rw [eq_of_beq hk, Json.beq_sound v w hv, Json.beqKvs_sound xs ys ht]
  | [], _ :: _, h => nomatch h
  | _ :: _, [], h => nomatch h

end

instance : DecidableEq Json := fun a b =>
  if h : Json.beq a b = true then .isTrue (Json.beq_sound a b h)
  else .isFalse (fun he => h (he ▸ Json.beq_refl a))

instance : BEq Json := ⟨Json.beq⟩

instance : LawfulBEq Json where
  eq_of_beq := Json.beq_sound _ _
  rfl := Json.beq_refl _

/-- nagios return codes enum (class ExitCode, lines 42-48). -/
inductive ExitCode where
  | OK
  | WARNING
  | CRITICAL
  | UNKNOWN
deriving Repr, DecidableEq

/-- Integer value of each ExitCode member (OK=0, WARNING=1, CRITICAL=2, UNKNOWN=3). -/
def ExitCode.val : ExitCode → Nat
  | .OK => 0
  | .WARNING => 1
  | .CRITICAL => 2
  | .UNKNOWN => 3

/-- Python max over the IntEnum: keeps the left argument on ties. -/
def pymax (x y : ExitCode) : ExitCode :=
  if x.val < y.val then y else x

namespace Json

/-- Python subscription with a string key: dict lookup (KeyError when the key
is absent), TypeError on any non-dict value. -/
def sub (j : Json) (k : String) : Except PyErr Json :=
  match j with
  | .obj kvs =>
      match kvs.lookup k with
      | some v => .ok v
      | none => .error .keyError
  | _ => .error .typeError

/-- Python subscription with a non-negative integer index. -/
def idx (j : Json) (i : Nat) : Except PyErr Json :=
  match j with
  | .arr xs =>
      match xs[i]? with
      | some v => .ok v
      | none => .error .indexError
  | .obj _ => .error .keyError
  | _ => .error .typeError

/-- Python iteration over a value: list elements, dict keys, or the characters
of a string; TypeError otherwise. -/
def pyIter (j : Json) : Except PyErr (List Json) :=
  match j with
  | .arr xs => .ok xs
  | .obj kvs => .ok (kvs.map (fun kv => Json.str kv.1))
  | .str s => .ok (s.data.map (fun c => Json.str (String.mk [c])))
  | _ => .error .typeError

/-- The items() method of a Python dict; AttributeError on any other value. -/
def pyItems (j : Json) : Except PyErr (List (String × Json)) :=
  match j with
  | .obj kvs => .ok kvs
  | _ => .error .attributeError

/-- A string method receiver: AttributeError when the value is not a str. -/
def asStr (j : Json) : Except PyErr String :=
  match j with
  | .str s => .ok s
  | _ => .error .attributeError

end Json

/-- A single-quote character, written without an apostrophe literal. -/
def squote : String := String.mk [Char.ofNat 39]

mutual

/-- str() of a Python value, as used by f-string interpolation and by
format_table when measuring column widths. -/
def Json.pyStr : Json → String
  | .null => "None"
  | .num n => toString n
  | .str s => s
  | .arr xs => "[" ++ String.intercalate ", " (Json.pyReprList xs) ++ "]"
  | .obj kvs => "\x7b" ++ String.intercalate ", " (Json.pyReprKvs kvs) ++ "\x7d"

/-- repr() of a Python value (string escaping inside repr is not modelled). -/
def Json.pyRepr : Json → String
  | .null => "None"
  | .num n => toString n
  | .str s => squote ++ s ++ squote
  | .arr xs => "[" ++ String.intercalate ", " (Json.pyReprList xs) ++ "]"
  | .obj kvs => "\x7b" ++ String.intercalate ", " (Json.pyReprKvs kvs) ++ "\x7d"

def Json.pyReprList : List Json → List String
  | [] => []
  | x :: xs => Json.pyRepr x :: Json.pyReprList xs

def Json.pyReprKvs : List (String × Json) → List String
  | [] => []
  | (k, v) :: xs =>
      (squote ++ k ++ squote ++ ": " ++ Json.pyRepr v) :: Json.pyReprKvs xs

end

/-- The str.strip() method: drops leading and trailing whitespace. -/
def pyStrip (s : String) : String :=
  String.mk (((s.data.dropWhile Char.isWhitespace).reverse.dropWhile
    Char.isWhitespace).reverse)

/-- A Python object viewed as its ordered attribute dictionary; format_table
reads and writes rows through getattr and setattr only. -/
abbrev Row : Type := List (String × Json)

/-- getattr on a Python object: AttributeError when the attribute is absent. -/
def Row.pyGetattr (row : Row) (name : String) : Except PyErr Json :=
  match row.lookup name with
  | some v => .ok v
  | none => .error .attributeError

/-- setattr on a Python object: replaces the named attribute in place. -/
def Row.pySetattr (row : Row) (name : String) (v : Json) : Row :=
  row.map (fun kv => if kv.1 = name then (kv.1, v) else kv)

/-- The str.join method over a Python list: TypeError unless every element is
a str. -/
def pyJoin (sep : String) (xs : List Json) : Except PyErr String := do
  let ss ← xs.mapM (fun j => match j with
    | Json.str s => Except.ok s
    | _ => Except.error PyErr.typeError)
  pure (String.intercalate sep ss)

/-- Left-justified padding, as the format specification :<w produces for the
str and int values that reach it. -/
def leftJust (s : String) (w : Nat) : String :=
  s ++ String.mk (List.replicate (w - s.length) ' ')

/-- Lines 71-74 of format_table: a list-valued attribute is replaced in place
by its comma-joined text before the row is rendered. -/
def mutateAttr (row : Row) (name : String) : Except PyErr Row := do
  let value ← row.pyGetattr name
  match value with
  | Json.arr xs => do
      let j ← pyJoin "," xs
      pure (row.pySetattr name (Json.str j))
  | _ => pure row

/-- format_table (lines 51-77).  Returns the rendered table and the rows as
they stand after rendering: the source mutates each row in place while
rendering it, so the post-render rows are part of the observable state. -/
def format_table (headers : List String) (rows : List Row) :
    Except PyErr (String × List Row) := do
  let column_widths ← rows.foldlM
    (fun ws row => (headers.zip ws).mapM (fun nw => do
      let v ← row.pyGetattr nw.1
      pure (max nw.2 v.pyStr.length)))
    (headers.map String.length)
  let header_line := String.intercalate " | "
    ((headers.zip column_widths).map (fun hw => leftJust hw.1 hw.2))
  let separator := String.intercalate "-+-"
    (column_widths.map (fun w => String.mk (List.replicate w '-')))
  let st ← rows.foldlM
    (fun (st : List String × List Row) row => do
      let row ← headers.foldlM mutateAttr row
      let cells ← (headers.zip column_widths).mapM (fun nw => do
        let v ← row.pyGetattr nw.1
        pure (leftJust v.pyStr nw.2))
      pure (st.1 ++ [String.intercalate " | " cells], st.2 ++ [row]))
    ([header_line, separator], ([] : List Row))
  pure (String.intercalate "\n" st.1, st.2)

/-- dataclass ControllerInfo (lines 130-138). -/
structure ControllerInfo where
  cid : Json
  status : Json
  model : Json
  ram : Json
  temp : Json
  firmware : Json
  bbu : List Json
deriving Repr, DecidableEq

/-- dataclass VdiskInfo (lines 141-148). -/
structure VdiskInfo where
  vid : Json
  type : Json
  size : Json
  strip : Json
  status : Json
  ospath : Json
deriving Repr, DecidableEq

/-- dataclass PdiskInfo (lines 151-159). -/
structure PdiskInfo where
  did : Json
  type : Json
  model : Json
  size : Json
  status : Json
  speed : Json
  temp : Json
deriving Repr, DecidableEq

/-- The attribute dictionary of a ControllerInfo instance, in field order. -/
def ControllerInfo.toAttrs (r : ControllerInfo) : Row :=
  [("cid", r.cid), ("status", r.status), ("model", r.model), ("ram", r.ram),
   ("temp", r.temp), ("firmware", r.firmware), ("bbu", Json.arr r.bbu)]

/-- The attribute dictionary of a VdiskInfo instance, in field order. -/
def VdiskInfo.toAttrs (r : VdiskInfo) : Row :=
  [("vid", r.vid), ("type", r.type), ("size", r.size), ("strip", r.strip),
   ("status", r.status), ("ospath", r.ospath)]

/-- The attribute dictionary of a PdiskInfo instance, in field order. -/
def PdiskInfo.toAttrs (r : PdiskInfo) : Row :=
  [("did", r.did), ("type", r.type), ("model", r.model), ("size", r.size),
   ("status", r.status), ("speed", r.speed), ("temp", r.temp)]

/-- json_command (lines 84-91): running the external command and parsing its
output as JSON is an external collaborator, so its outcome is the parameter
`raw`; any JSON or process failure is re-raised as JsonCommandError. -/
def json_command (raw : Except String Json) : Except PyErr Json :=
  match raw with
  | .ok j => .ok j
  | .error msg => .error (.jsonCommandError msg)

/-- One iteration of a per-record check loop: build the record from the raw
block, update the running exit code, append the record. -/
def checkStep (p : β → Except PyErr α) (upd : ExitCode → α → ExitCode)
    (acc : ExitCode × List α) (x : β) : Except PyErr (ExitCode × List α) := do
  let info ← p x
  pure (upd acc.1 info, acc.2 ++ [info])

/-- str.split with a single-character separator, on the character list of a
string; the result is never empty. -/
def splitOnCharList (sep : Char) : List Char → List (List Char)
  | [] => [[]]
  | c :: rest =>
      match splitOnCharList sep rest with
      | [] => [[]]
      | h :: t => if c = sep then [] :: h :: t else (c :: h) :: t

/-- The str.split method with a single-character separator. -/
def pySplit (s : String) (sep : Char) : List String :=
  (splitOnCharList sep s.data).map String.mk

/-- Greedy run of decimal digits, the [0-9]+ piece of the regular
expressions in the source; fails on the empty run. -/
def readDigitRun (cs : List Char) : Option (List Char × List Char) :=
  match cs.takeWhile Char.isDigit with
  | [] => none
  | ds => some (ds, cs.dropWhile Char.isDigit)

namespace Perccli7Manager

/-- Field extraction for one controller block (lines 180-190). -/
def processController (controller : Json) : Except PyErr ControllerInfo := do
  let resp ← controller.sub "Response Data"
  let cnum ← (← controller.sub "Command Status").sub "Controller"
  let status ← (← resp.sub "Status").sub "Controller Status"
  let model ← (← resp.sub "Basics").sub "Model"
  let ram ← (← resp.sub "HwCfg").sub "On Board Memory Size"
  let temp ← (← resp.sub "HwCfg").sub "Ctrl temperature(Degree Celsius)"
  let firmware ← (← resp.sub "Version").sub "Firmware Version"
  let bbu ← (← (← resp.sub "BBU_Info").pyIter).mapM
    (fun bbu_item => bbu_item.sub "State")
  pure ⟨Json.str ("C" ++ cnum.pyStr), status, model, ram, temp, firmware, bbu⟩

/-- Verdict update for one controller (lines 192-195). -/
def controllerUpd (exit_code : ExitCode) (cinfo : ControllerInfo) : ExitCode :=
  let exit_code :=
    if cinfo.status ≠ Json.str "Optimal" then ExitCode.CRITICAL else exit_code
  if ¬ (cinfo.bbu.all (fun item => item == Json.str "Optimal")) then
    ExitCode.CRITICAL
  else exit_code

/-- check_controllers of Perccli7Manager (lines 168-199); `raw` is the outcome
of the /call show all query. -/
def check_controllers (raw : Except String Json) :
    Except PyErr (ExitCode × List ControllerInfo) :=
  match json_command raw with
  | .error _ => .ok (ExitCode.CRITICAL, [])
  | .ok controller_data => do
      let controllers ← (← controller_data.sub "Controllers").pyIter
      controllers.foldlM (checkStep processController controllerUpd)
        (ExitCode.OK, [])

/-- Field extraction for one vdisk block (lines 220-229); repeated identical
subscriptions of the source are evaluated once since they are pure. -/
def processVdisk (controller resp : Json) (nv : String × Json) :
    Except PyErr VdiskInfo := do
  let vd0 ← nv.2.idx 0
  let dgvd ← vd0.sub "DG/VD"
  let dgvdStr ← dgvd.asStr
  let vdisk_props :=
    "VD" ++ (pySplit dgvdStr '/').getLastD "" ++ " Properties"
  let cnum ← (← controller.sub "Command Status").sub "Controller"
  let vtype ← vd0.sub "TYPE"
  let size ← vd0.sub "Size"
  let strip ← (← resp.sub vdisk_props).sub "Strip Size"
  let state ← vd0.sub "State"
  let ospath ← (← resp.sub vdisk_props).sub "OS Drive Name"
  pure ⟨Json.str ("C" ++ cnum.pyStr ++ " V" ++ dgvd.pyStr),
        vtype, size, strip, state, ospath⟩

/-- Verdict update for one vdisk (lines 231-232). -/
def vdiskUpd (exit_code : ExitCode) (vinfo : VdiskInfo) : ExitCode :=
  if vinfo.status ≠ Json.str "Optl" then ExitCode.CRITICAL else exit_code

/-- The vdisk loop body for one controller block (lines 212-234): vdisk info
blocks are the response items whose name starts with /c. -/
def vdiskCtrlStep (acc : ExitCode × List VdiskInfo) (controller : Json) :
    Except PyErr (ExitCode × List VdiskInfo) := do
  let resp ← controller.sub "Response Data"
  let pairs ← resp.pyItems
  (pairs.filter (fun nv => "/c".data.isPrefixOf nv.1.data)).foldlM
    (checkStep (processVdisk controller resp) vdiskUpd) acc

/-- check_virtual_disks of Perccli7Manager (lines 201-236). -/
def check_virtual_disks (raw : Except String Json) :
    Except PyErr (ExitCode × List VdiskInfo) :=
  match json_command raw with
  | .error _ => .ok (ExitCode.CRITICAL, [])
  | .ok virtual_data => do
      let controllers ← (← virtual_data.sub "Controllers").pyIter
      controllers.foldlM vdiskCtrlStep (ExitCode.OK, [])

/-- End of the drive-name pattern: the dollar anchor accepts the end of the
string or a single trailing newline. -/
def dollarAnchor (cs : List Char) : Bool :=
  cs.isEmpty || cs == ['\n']

/-- The /s[0-9]+ tail of the drive-name pattern. -/
def slotTail (cs : List Char) : Bool :=
  match cs with
  | '/' :: 's' :: rest =>
      match readDigitRun rest with
      | some (_, rest2) => dollarAnchor rest2
      | none => false
  | _ => false

/-- The optional (/e[0-9]+)? group followed by the slot tail. -/
def driveTail (cs : List Char) : Bool :=
  match cs with
  | '/' :: 'e' :: rest =>
      match readDigitRun rest with
      | some (_, rest2) => slotTail rest2
      | none => false
  | _ => slotTail cs

/-- The anchored re.match of line 268 on a response item name. -/
def driveNameMatch (name : String) : Bool :=
  if "Drive /c".data.isPrefixOf name.data then
    match readDigitRun (name.data.drop 8) with
    | some (_, rest) => driveTail rest
    | none => false
  else false

/-- Field extraction for one physical-disk block (lines 272-284); the drive
temperature is stripped of surrounding whitespace. -/
def processPdisk (controller resp : Json) (nv : String × Json) :
    Except PyErr PdiskInfo := do
  let name := nv.1
  let cnum ← (← controller.sub "Command Status").sub "Controller"
  let pd0 ← nv.2.idx 0
  let eidslt ← pd0.sub "EID:Slt"
  let intf ← pd0.sub "Intf"
  let med ← pd0.sub "Med"
  let model ← pd0.sub "Model"
  let size ← pd0.sub "Size"
  let state ← pd0.sub "State"
  let det ← resp.sub (name ++ " - Detailed Information")
  let speed ← (← det.sub (name ++ " Device attributes")).sub "Link Speed"
  let tempRaw ← (← (← det.sub (name ++ " State")).sub "Drive Temperature").asStr
  pure ⟨Json.str ("C" ++ cnum.pyStr ++ " P" ++ eidslt.pyStr),
        Json.str (intf.pyStr ++ " " ++ med.pyStr),
        model, size, state, speed, Json.str (pyStrip tempRaw)⟩

/-- Verdict update for one physical disk (lines 286-287). -/
def pdiskUpd (exit_code : ExitCode) (pinfo : PdiskInfo) : ExitCode :=
  if pinfo.status ∉ [Json.str "Onln", Json.str "GHS"] then ExitCode.CRITICAL
  else exit_code

/-- _phys_disks_data (lines 238-251): two query flavors are probed; `raw1` is
the /call/eall/sall outcome and `raw2` the /call/sall outcome. -/
def phys_disks_data (raw1 raw2 : Except String Json) : Except PyErr Json := do
  let disk_data ← json_command raw1
  let s1 ←
    (← (← (← disk_data.sub "Controllers").idx 0).sub "Command Status").sub
      "Status"
  if s1 = Json.str "Success" then
    pure disk_data
  else do
    let disk_data ← json_command raw2
    let s2 ←
      (← (← (← disk_data.sub "Controllers").idx 0).sub "Command Status").sub
        "Status"
    if s2 = Json.str "Success" then
      pure disk_data
    else
      .error (.jsonCommandError "_phys_disks_data failed")

/-- The physical-disk loop body for one controller block (lines 264-289):
drive blocks are the response items whose name matches the drive pattern. -/
def pdiskCtrlStep (acc : ExitCode × List PdiskInfo) (controller : Json) :
    Except PyErr (ExitCode × List PdiskInfo) := do
  let resp ← controller.sub "Response Data"
  let pairs ← resp.pyItems
  (pairs.filter (fun nv => driveNameMatch nv.1)).foldlM
    (checkStep (processPdisk controller resp) pdiskUpd) acc

/-- check_phys_disks of Perccli7Manager (lines 253-291): the data probe is
guarded against JsonCommandError and KeyError; the record loop is not. -/
def check_phys_disks (raw1 raw2 : Except String Json) :
    Except PyErr (ExitCode × List PdiskInfo) :=
  match phys_disks_data raw1 raw2 with
  | .error (.jsonCommandError _) => .ok (ExitCode.CRITICAL, [])
  | .error .keyError => .ok (ExitCode.CRITICAL, [])
  | .error e => .error e
  | .ok disk_data => do
      let controllers ← (← disk_data.sub "Controllers").pyIter
      controllers.foldlM pdiskCtrlStep (ExitCode.OK, [])

end Perccli7Manager

namespace Perccli8Manager

/-- Field extraction for one controller block (lines 314-322). -/
def processController (controller : Json) : Except PyErr ControllerInfo := do
  let resp ← controller.sub "Response Data"
  let cnum ← (← controller.sub "Command Status").sub "Controller"
  let status ← (← resp.sub "Status").sub "Controller Status"
  let model ← (← resp.sub "Basics").sub "Product Name"
  let ram ← (← resp.sub "HwCfg").sub "DDR Memory Size(MiB)"
  let temp ← (← resp.sub "HwCfg").sub "Chip temperature(C)"
  let firmware ← (← resp.sub "Version").sub "Firmware Version"
  let bbu ← (← (← resp.sub "Energy Pack Info").pyIter).mapM
    (fun epack => epack.sub "Status")
  pure ⟨Json.str ("C" ++ cnum.pyStr), status, model, ram, temp, firmware, bbu⟩

/-- Verdict update for one controller (lines 324-327). -/
def controllerUpd (exit_code : ExitCode) (cinfo : ControllerInfo) : ExitCode :=
  let exit_code :=
    if cinfo.status ≠ Json.str "Optimal" then ExitCode.CRITICAL else exit_code
  if ¬ (cinfo.bbu.all (fun item => item == Json.str "Optimal")) then
    ExitCode.CRITICAL
  else exit_code

/-- check_controllers of Perccli8Manager (lines 300-331). -/
def check_controllers (raw : Except String Json) :
    Except PyErr (ExitCode × List ControllerInfo) :=
  match json_command raw with
  | .error _ => .ok (ExitCode.CRITICAL, [])
  | .ok controller_data => do
      let controllers ← (← controller_data.sub "Controllers").pyIter
      controllers.foldlM (checkStep processController controllerUpd)
        (ExitCode.OK, [])

/-- Field extraction for one vdisk block (lines 348-355). -/
def processVdisk (controller : Json) (vdisk : Json) :
    Except PyErr VdiskInfo := do
  let cnum ← (← controller.sub "Command Status").sub "Controller"
  let dgvd ← (← vdisk.sub "VD Info").sub "DG/VD"
  let vtype ← (← vdisk.sub "VD Info").sub "TYPE"
  let size ← (← vdisk.sub "VD Info").sub "Size"
  let strip ← (← vdisk.sub "VD Properties").sub "Strip Size"
  let state ← (← vdisk.sub "VD Info").sub "State"
  let ospath ← (← vdisk.sub "VD Properties").sub "OS Drive Name"
  pure ⟨Json.str ("C" ++ cnum.pyStr ++ " V" ++ dgvd.pyStr),
        vtype, size, strip, state, ospath⟩

/-- Verdict update for one vdisk (lines 357-358). -/
def vdiskUpd (exit_code : ExitCode) (vinfo : VdiskInfo) : ExitCode :=
  if vinfo.status ≠ Json.str "Optl" then ExitCode.CRITICAL else exit_code

/-- The vdisk loop body for one controller block (lines 344-360). -/
def vdiskCtrlStep (acc : ExitCode × List VdiskInfo) (controller : Json) :
    Except PyErr (ExitCode × List VdiskInfo) := do
  let resp ← controller.sub "Response Data"
  let vdisks ← (← resp.sub "Virtual Drives").pyIter
  vdisks.foldlM (checkStep (processVdisk controller) vdiskUpd) acc

/-- check_virtual_disks of Perccli8Manager (lines 333-362). -/
def check_virtual_disks (raw : Except String Json) :
    Except PyErr (ExitCode × List VdiskInfo) :=
  match json_command raw with
  | .error _ => .ok (ExitCode.CRITICAL, [])
  | .ok virtual_data => do
      let controllers ← (← virtual_data.sub "Controllers").pyIter
      controllers.foldlM vdiskCtrlStep (ExitCode.OK, [])

/-- Field extraction for one physical-disk block (lines 379-387); unlike the
version 7 adapter, the temperature value is taken verbatim, without strip. -/
def processPdisk (controller : Json) (pdisk : Json) :
    Except PyErr PdiskInfo := do
  let cnum ← (← controller.sub "Command Status").sub "Controller"
  let eidslt ← (← pdisk.sub "Drive Information").sub "EID:Slt"
  let intf ← (← pdisk.sub "Drive Information").sub "Intf"
  let med ← (← pdisk.sub "Drive Information").sub "Med"
  let model ← (← pdisk.sub "Drive Information").sub "Model"
  let size ← (← pdisk.sub "Drive Information").sub "Size"
  let status ← (← pdisk.sub "Drive Information").sub "Status"
  let speed ←
    (← (← (← pdisk.sub "Drive Detailed Information").sub
      "Path Information").idx 0).sub "Negotiated Speed"
  let temp ← (← pdisk.sub "Drive Detailed Information").sub "Temperature(C)"
  pure ⟨Json.str ("C" ++ cnum.pyStr ++ " P" ++ eidslt.pyStr),
        Json.str (intf.pyStr ++ " " ++ med.pyStr),
        model, size, status, speed, temp⟩

/-- Verdict update for one physical disk (lines 389-390). -/
def pdiskUpd (exit_code : ExitCode) (pinfo : PdiskInfo) : ExitCode :=
  if pinfo.status ∉ [Json.str "Online", Json.str "Good"] then ExitCode.CRITICAL
  else exit_code

/-- The physical-disk loop body for one controller block (lines 375-392). -/
def pdiskCtrlStep (acc : ExitCode × List PdiskInfo) (controller : Json) :
    Except PyErr (ExitCode × List PdiskInfo) := do
  let resp ← controller.sub "Response Data"
  let drives ← (← resp.sub "Drives List").pyIter
  drives.foldlM (checkStep (processPdisk controller) pdiskUpd) acc

/-- check_phys_disks of Perccli8Manager (lines 364-394). -/
def check_phys_disks (raw : Except String Json) :
    Except PyErr (ExitCode × List PdiskInfo) :=
  match json_command raw with
  | .error _ => .ok (ExitCode.CRITICAL, [])
  | .ok disk_data => do
      let controllers ← (← disk_data.sub "Controllers").pyIter
      controllers.foldlM pdiskCtrlStep (ExitCode.OK, [])

end Perccli8Manager

/-- Line 431 of main: the overall exit code aggregates the three category
severities by Python max over the IntEnum. -/
def main_exit_code (ctrl_ret virtual_ret pdisk_ret : ExitCode) : ExitCode :=
  pymax (pymax ctrl_ret virtual_ret) pdisk_ret

/-- main (lines 420-458) from the point where the manager is selected: the
three category checks run in order, their severities aggregate by max, and
the aggregate is returned as the exit code.  Report rendering is modelled
separately by format_table and does not feed back into the exit code. -/
def main_result (ctrl : Except PyErr (ExitCode × List ControllerInfo))
    (virt : Except PyErr (ExitCode × List VdiskInfo))
    (pdisk : Except PyErr (ExitCode × List PdiskInfo)) :
    Except PyErr ExitCode := do
  let cr ← ctrl
  let vr ← virt
  let pr ← pdisk
  pure (main_exit_code cr.1 vr.1 pr.1)

/-- The fixed literal of the version pattern between the dot-star gap and the
captured digit group. -/
def verLiteral : List Char := "SAS Customization Utility Ver ".data

/-- int() applied to a run of decimal digits. -/
def digitsToNat (ds : List Char) : Nat :=
  ds.foldl (fun a c => 10 * a + (c.toNat - 48)) 0

/-- Expect the escaped literal dot of the pattern at the head. -/
def expectDot : List Char → Option (List Char)
  | [] => none
  | c :: rest => if c = '.' then some rest else none

/-- Match the tail of the version pattern at the current position: the fixed
literal, then the captured digit group, then three dot-plus-digit-run
repetitions.  Returns int() of the captured group. -/
def findVerAt (cs : List Char) : Option Nat :=
  if verLiteral.isPrefixOf cs then
    (readDigitRun (cs.drop verLiteral.length)).bind fun gr =>
    (expectDot gr.2).bind fun r2 =>
    (readDigitRun r2).bind fun d2r =>
    (expectDot d2r.2).bind fun r4 =>
    (readDigitRun r4).bind fun d3r =>
    (expectDot d3r.2).bind fun r6 =>
    (readDigitRun r6).map fun _ => digitsToNat gr.1
  else none

/-- The greedy dot-star gap of the version pattern: scan the current line for
the rightmost position where the version tail matches. -/
def searchVerTail : List Char → Option Nat
  | [] => none
  | c :: rest =>
    if c = '\n' then none
    else
      match searchVerTail rest with
      | some n => some n
      | none => findVerAt (c :: rest)

/-- re.search for the whole version pattern: the leftmost occurrence of
PercCli from which the version tail matches on the same line. -/
def searchPercCli : List Char → Option Nat
  | [] => none
  | c :: rest =>
    if "PercCli".data.isPrefixOf (c :: rest) then
      match searchVerTail ((c :: rest).drop 7) with
      | some n => some n
      | none => searchPercCli rest
    else searchPercCli rest

/-- parse_version (lines 106-113); `output` is the raw text of the version
query.  A RuntimeError is raised when the pattern does not match. -/
def parse_version (output : String) : Except PyErr Nat :=
  match searchPercCli output.data with
  | some n => .ok n
  | none => .error (.runtimeError "perccli version not parsed")

/-- The closed set of adapters the factory can select. -/
inductive Manager where
  | perccli7 (perccli_path : String)
  | perccli8 (perccli_path : String)
deriving Repr, DecidableEq

/-- manager_factory (lines 116-127); locating the binary is an external
collaborator, so `perccli_path` is already resolved, and `versionOutput` is
the raw text returned by the version query. -/
def manager_factory (perccli_path : String) (versionOutput : String) :
    Except PyErr Manager :=
  match parse_version versionOutput with
  | .error e => .error e
  | .ok 7 => .ok (.perccli7 perccli_path)
  | .ok 8 => .ok (.perccli8 perccli_path)
  | .ok _ => .error (.runtimeError "perccli version not supported")

/-! Inversion and small reduction lemmas for the Except monad, used across
the claims. -/

theorem except_bind_ok {ε α β : Type} {x : Except ε α} {f : α → Except ε β}
    {b : β} : x >>= f = .ok b ↔ ∃ a, x = .ok a ∧ f a = .ok b := by
  cases x <;> simp [Bind.bind, Except.bind]

theorem except_bind_err {ε α β : Type} {x : Except ε α} {f : α → Except ε β}
    {e : ε} :
    x >>= f = .error e ↔ x = .error e ∨ ∃ a, x = .ok a ∧ f a = .error e := by
  cases x <;> simp [Bind.bind, Except.bind]

theorem except_map_ok {ε α β : Type} {x : Except ε α} {f : α → β} {b : β} :
    Except.map f x = .ok b ↔ ∃ a, x = .ok a ∧ f a = b := by
  cases x <;> simp [Except.map]

theorem except_ok_bind {ε α β : Type} (a : α) (f : α → Except ε β) :
    (Except.ok a : Except ε α) >>= f = f a := rfl

theorem except_error_bind {ε α β : Type} (e : ε) (f : α → Except ε β) :
    (Except.error e : Except ε α) >>= f = .error e := rfl

theorem except_map_okv {ε α β : Type} (f : α → β) (a : α) :
    (Except.map f (.ok a) : Except ε β) = .ok (f a) := rfl

theorem except_map_errv {ε α β : Type} (f : α → β) (e : ε) :
    (Except.map f (.error e) : Except ε β) = .error e := rfl

/-- A check loop over flat items: folding checkStep is the same as extracting
every record first and then taking the verdict to CRITICAL exactly when some
record satisfies the bad predicate. -/
theorem foldlM_checkStep {α β : Type} (p : β → Except PyErr α)
    (upd : ExitCode → α → ExitCode) (bad : α → Bool)
    (hupd : ∀ ec i, upd ec i = if bad i then ExitCode.CRITICAL else ec) :
    ∀ (items : List β) (ec0 : ExitCode) (acc0 : List α),
    items.foldlM (checkStep p upd) (ec0, acc0)
      = (items.mapM p).map
          (fun l => (if l.any bad then ExitCode.CRITICAL else ec0, acc0 ++ l))
  | [], ec0, acc0 => by
      rw [List.foldlM_nil, List.mapM_nil]
      show Except.ok (ec0, acc0) = Except.map _ (.ok [])
      rw [except_map_okv]
      simp
  | x :: xs, ec0, acc0 => by
      rw [List.foldlM_cons]
      cases hp : p x with
      | error e =>
          have h1 : checkStep p upd (ec0, acc0) x = .error e := by
            unfold checkStep; rw [hp]; rfl
          have h2 : (x :: xs).mapM p = (.error e : Except PyErr (List α)) := by
            rw [List.mapM_cons, hp, except_error_bind]
          rw [h1, h2, except_error_bind, except_map_errv]
      | ok i =>
          have h1 : checkStep p upd (ec0, acc0) x
              = .ok (upd ec0 i, acc0 ++ [i]) := by
            unfold checkStep; rw [hp]; rfl
          rw [h1, except_ok_bind,
            foldlM_checkStep p upd bad hupd xs (upd ec0 i) (acc0 ++ [i])]
          cases hm : xs.mapM p with
          | error e =>
              have h2 : (x :: xs).mapM p = (.error e : Except PyErr (List α)) := by
                rw [List.mapM_cons, hp, except_ok_bind, hm, except_error_bind]
              rw [h2, except_map_errv, except_map_errv]
          | ok l =>
              have h2 : (x :: xs).mapM p = .ok (i :: l) := by
                rw [List.mapM_cons, hp, except_ok_bind, hm, except_ok_bind]; rfl
              rw [h2, except_map_okv, except_map_okv]
              have h3 : (if l.any bad then ExitCode.CRITICAL else upd ec0 i)
                  = if (i :: l).any bad then ExitCode.CRITICAL else ec0 := by
                rw [hupd]
                cases hb : bad i <;> cases hl : l.any bad <;>
                  simp [List.any_cons, hb, hl]
              rw [h3]
              simp [List.append_assoc]

/-- A check loop over nested per-controller items: when every outer step is
equivalent to producing that controller's record list and folding it in, the
whole loop is equivalent to producing all lists and flattening them. -/
theorem foldlM_checkOuter {α γ : Type} (produce : γ → Except PyErr (List α))
    (step : ExitCode × List α → γ → Except PyErr (ExitCode × List α))
    (bad : α → Bool)
    (hstep : ∀ ec acc c, step (ec, acc) c
      = (produce c).map
          (fun l => (if l.any bad then ExitCode.CRITICAL else ec, acc ++ l))) :
    ∀ (ctrls : List γ) (ec0 : ExitCode) (acc0 : List α),
    ctrls.foldlM step (ec0, acc0)
      = (ctrls.mapM produce).map
          (fun ls => (if ls.flatten.any bad then ExitCode.CRITICAL else ec0,
            acc0 ++ ls.flatten))
  | [], ec0, acc0 => by
      rw [List.foldlM_nil, List.mapM_nil]
      show Except.ok (ec0, acc0) = Except.map _ (.ok [])
      rw [except_map_okv]
      simp
  | c :: cs, ec0, acc0 => by
      rw [List.foldlM_cons]
      cases hp : produce c with
      | error e =>
          have h1 : step (ec0, acc0) c = .error e := by
            rw [hstep, hp, except_map_errv]
          have h2 : (c :: cs).mapM produce
              = (.error e : Except PyErr (List (List α))) := by
            rw [List.mapM_cons, hp, except_error_bind]
          rw [h1, h2, except_error_bind, except_map_errv]
      | ok l =>
          have h1 : step (ec0, acc0) c
              = .ok (if l.any bad then ExitCode.CRITICAL else ec0, acc0 ++ l) := by
            rw [hstep, hp, except_map_okv]
          rw [h1, except_ok_bind, foldlM_checkOuter produce step bad hstep cs _ _]
          cases hm : cs.mapM produce with
          | error e =>
              have h2 : (c :: cs).mapM produce
                  = (.error e : Except PyErr (List (List α))) := by
                rw [List.mapM_cons, hp, except_ok_bind, hm, except_error_bind]
              rw [h2, except_map_errv, except_map_errv]
          | ok ls =>
              have h2 : (c :: cs).mapM produce = .ok (l :: ls) := by
                rw [List.mapM_cons, hp, except_ok_bind, hm, except_ok_bind]; rfl
              rw [h2, except_map_okv, except_map_okv]
              have h3 : (if ls.flatten.any bad then ExitCode.CRITICAL
                    else if l.any bad then ExitCode.CRITICAL else ec0)
                  = if (l :: ls).flatten.any bad then ExitCode.CRITICAL
                    else ec0 := by
                cases hb : l.any bad <;> cases hl : ls.flatten.any bad <;>
                  simp [List.flatten_cons, List.any_append, hb, hl]
              rw [h3]
              simp [List.flatten_cons, List.append_assoc]

/-- The per-controller verdict condition (lines 192-195 and 324-327). -/
def badController (cinfo : ControllerInfo) : Bool :=
  decide (cinfo.status ≠ Json.str "Optimal") ||
    !(cinfo.bbu.all (fun item => item == Json.str "Optimal"))

/-- The per-vdisk verdict condition (lines 231-232 and 357-358). -/
def badVdisk (vinfo : VdiskInfo) : Bool :=
  decide (vinfo.status ≠ Json.str "Optl")

/-- The version 7 per-pdisk verdict condition (lines 286-287). -/
def badPdisk7 (pinfo : PdiskInfo) : Bool :=
  decide (pinfo.status ∉ [Json.str "Onln", Json.str "GHS"])

/-- The version 8 per-pdisk verdict condition (lines 389-390). -/
def badPdisk8 (pinfo : PdiskInfo) : Bool :=
  decide (pinfo.status ∉ [Json.str "Online", Json.str "Good"])

theorem controllerUpd7_eq (ec : ExitCode) (i : ControllerInfo) :
    Perccli7Manager.controllerUpd ec i
      = if badController i then ExitCode.CRITICAL else ec := by
  unfold Perccli7Manager.controllerUpd badController
  by_cases h1 : i.status = Json.str "Optimal" <;>
    cases h2 : i.bbu.all (fun item => item == Json.str "Optimal") <;>
      simp [h1, h2]

theorem controllerUpd8_eq (ec : ExitCode) (i : ControllerInfo) :
    Perccli8Manager.controllerUpd ec i
      = if badController i then ExitCode.CRITICAL else ec := by
  unfold Perccli8Manager.controllerUpd badController
  by_cases h1 : i.status = Json.str "Optimal" <;>
    cases h2 : i.bbu.all (fun item => item == Json.str "Optimal") <;>
      simp [h1, h2]

theorem vdiskUpd7_eq (ec : ExitCode) (i : VdiskInfo) :
    Perccli7Manager.vdiskUpd ec i
      = if badVdisk i then ExitCode.CRITICAL else ec := by
  unfold Perccli7Manager.vdiskUpd badVdisk
  by_cases h : i.status = Json.str "Optl" <;> simp [h]

theorem vdiskUpd8_eq (ec : ExitCode) (i : VdiskInfo) :
    Perccli8Manager.vdiskUpd ec i
      = if badVdisk i then ExitCode.CRITICAL else ec := by
  unfold Perccli8Manager.vdiskUpd badVdisk
  by_cases h : i.status = Json.str "Optl" <;> simp [h]

theorem pdiskUpd7_eq (ec : ExitCode) (i : PdiskInfo) :
    Perccli7Manager.pdiskUpd ec i
      = if badPdisk7 i then ExitCode.CRITICAL else ec := by
  unfold Perccli7Manager.pdiskUpd badPdisk7
  by_cases h : i.status ∈ [Json.str "Onln", Json.str "GHS"] <;> simp [h]

theorem pdiskUpd8_eq (ec : ExitCode) (i : PdiskInfo) :
    Perccli8Manager.pdiskUpd ec i
      = if badPdisk8 i then ExitCode.CRITICAL else ec := by
  unfold Perccli8Manager.pdiskUpd badPdisk8
  by_cases h : i.status ∈ [Json.str "Online", Json.str "Good"] <;> simp [h]

/-- All vdisk records extracted from one version 7 controller block. -/
def ctrlVdisks7 (controller : Json) : Except PyErr (List VdiskInfo) := do
  let resp ← controller.sub "Response Data"
  let pairs ← resp.pyItems
  (pairs.filter (fun nv => "/c".data.isPrefixOf nv.1.data)).mapM
    (Perccli7Manager.processVdisk controller resp)

/-- All physical-disk records extracted from one version 7 controller block. -/
def ctrlPdisks7 (controller : Json) : Except PyErr (List PdiskInfo) := do
  let resp ← controller.sub "Response Data"
  let pairs ← resp.pyItems
  (pairs.filter (fun nv => Perccli7Manager.driveNameMatch nv.1)).mapM
    (Perccli7Manager.processPdisk controller resp)

/-- All vdisk records extracted from one version 8 controller block. -/
def ctrlVdisks8 (controller : Json) : Except PyErr (List VdiskInfo) := do
  let resp ← controller.sub "Response Data"
  let vdisks ← (← resp.sub "Virtual Drives").pyIter
  vdisks.mapM (Perccli8Manager.processVdisk controller)

/-- All physical-disk records extracted from one version 8 controller block. -/
def ctrlPdisks8 (controller : Json) : Except PyErr (List PdiskInfo) := do
  let resp ← controller.sub "Response Data"
  let drives ← (← resp.sub "Drives List").pyIter
  drives.mapM (Perccli8Manager.processPdisk controller)

theorem vdiskCtrlStep7_char (ec : ExitCode) (acc : List VdiskInfo) (c : Json) :
    Perccli7Manager.vdiskCtrlStep (ec, acc) c
      = (ctrlVdisks7 c).map
          (fun l => (if l.any badVdisk then ExitCode.CRITICAL else ec,
            acc ++ l)) := by
  unfold Perccli7Manager.vdiskCtrlStep ctrlVdisks7
  cases h1 : c.sub "Response Data" with
  | error e => rw [except_error_bind, except_error_bind, except_map_errv]
  | ok resp =>
      rw [except_ok_bind, except_ok_bind]
      cases h2 : resp.pyItems with
      | error e => rw [except_error_bind, except_error_bind, except_map_errv]
      | ok pairs =>
          rw [except_ok_bind, except_ok_bind,
            foldlM_checkStep _ _ badVdisk vdiskUpd7_eq _ ec acc]

theorem pdiskCtrlStep7_char (ec : ExitCode) (acc : List PdiskInfo) (c : Json) :
    Perccli7Manager.pdiskCtrlStep (ec, acc) c
      = (ctrlPdisks7 c).map
          (fun l => (if l.any badPdisk7 then ExitCode.CRITICAL else ec,
            acc ++ l)) := by
  unfold Perccli7Manager.pdiskCtrlStep ctrlPdisks7
  cases h1 : c.sub "Response Data" with
  | error e => rw [except_error_bind, except_error_bind, except_map_errv]
  | ok resp =>
      rw [except_ok_bind, except_ok_bind]
      cases h2 : resp.pyItems with
      | error e => rw [except_error_bind, except_error_bind, except_map_errv]
      | ok pairs =>
          rw [except_ok_bind, except_ok_bind,
            foldlM_checkStep _ _ badPdisk7 pdiskUpd7_eq _ ec acc]

theorem vdiskCtrlStep8_char (ec : ExitCode) (acc : List VdiskInfo) (c : Json) :
    Perccli8Manager.vdiskCtrlStep (ec, acc) c
      = (ctrlVdisks8 c).map
          (fun l => (if l.any badVdisk then ExitCode.CRITICAL else ec,
            acc ++ l)) := by
  unfold Perccli8Manager.vdiskCtrlStep ctrlVdisks8
  cases h1 : c.sub "Response Data" with
  | error e => rw [except_error_bind, except_error_bind, except_map_errv]
  | ok resp =>
      rw [except_ok_bind, except_ok_bind]
      cases h2 : resp.sub "Virtual Drives" with
      | error e => rw [except_error_bind, except_error_bind, except_map_errv]
      | ok vd =>
          rw [except_ok_bind, except_ok_bind]
          cases h3 : vd.pyIter with
          | error e => rw [except_error_bind, except_error_bind, except_map_errv]
          | ok vdisks =>
              rw [except_ok_bind, except_ok_bind,
                foldlM_checkStep _ _ badVdisk vdiskUpd8_eq _ ec acc]

theorem pdiskCtrlStep8_char (ec : ExitCode) (acc : List PdiskInfo) (c : Json) :
    Perccli8Manager.pdiskCtrlStep (ec, acc) c
      = (ctrlPdisks8 c).map
          (fun l => (if l.any badPdisk8 then ExitCode.CRITICAL else ec,
            acc ++ l)) := by
  unfold Perccli8Manager.pdiskCtrlStep ctrlPdisks8
  cases h1 : c.sub "Response Data" with
  | error e => rw [except_error_bind, except_error_bind, except_map_errv]
  | ok resp =>
      rw [except_ok_bind, except_ok_bind]
      cases h2 : resp.sub "Drives List" with
      | error e => rw [except_error_bind, except_error_bind, except_map_errv]
      | ok dl =>
          rw [except_ok_bind, except_ok_bind]
          cases h3 : dl.pyIter with
          | error e => rw [except_error_bind, except_error_bind, except_map_errv]
          | ok drives =>
              rw [except_ok_bind, except_ok_bind,
                foldlM_checkStep _ _ badPdisk8 pdiskUpd8_eq _ ec acc]

theorem check_controllers7_char (doc : Json) :
    Perccli7Manager.check_controllers (.ok doc)
      = (doc.sub "Controllers" >>= fun j => j.pyIter >>= fun ctrls =>
          (ctrls.mapM Perccli7Manager.processController).map
            (fun l => (if l.any badController then ExitCode.CRITICAL
              else ExitCode.OK, l))) := by
  have h0 : Perccli7Manager.check_controllers (.ok doc)
      = (doc.sub "Controllers" >>= fun j => j.pyIter >>= fun ctrls =>
          ctrls.foldlM
            (checkStep Perccli7Manager.processController
              Perccli7Manager.controllerUpd) (ExitCode.OK, [])) := rfl
  rw [h0]
  cases h1 : doc.sub "Controllers" with
  | error e => rw [except_error_bind, except_error_bind]
  | ok j =>
      rw [except_ok_bind, except_ok_bind]
      cases h2 : j.pyIter with
      | error e => rw [except_error_bind, except_error_bind]
      | ok ctrls =>
          rw [except_ok_bind, except_ok_bind,
            foldlM_checkStep _ _ badController controllerUpd7_eq ctrls
              ExitCode.OK []]
          simp

theorem check_controllers8_char (doc : Json) :
    Perccli8Manager.check_controllers (.ok doc)
      = (doc.sub "Controllers" >>= fun j => j.pyIter >>= fun ctrls =>
          (ctrls.mapM Perccli8Manager.processController).map
            (fun l => (if l.any badController then ExitCode.CRITICAL
              else ExitCode.OK, l))) := by
  have h0 : Perccli8Manager.check_controllers (.ok doc)
      = (doc.sub "Controllers" >>= fun j => j.pyIter >>= fun ctrls =>
          ctrls.foldlM
            (checkStep Perccli8Manager.processController
              Perccli8Manager.controllerUpd) (ExitCode.OK, [])) := rfl
  rw [h0]
  cases h1 : doc.sub "Controllers" with
  | error e => rw [except_error_bind, except_error_bind]
  | ok j =>
      rw [except_ok_bind, except_ok_bind]
      cases h2 : j.pyIter with
      | error e => rw [except_error_bind, except_error_bind]
      | ok ctrls =>
          rw [except_ok_bind, except_ok_bind,
            foldlM_checkStep _ _ badController controllerUpd8_eq ctrls
              ExitCode.OK []]
          simp

theorem check_virtual_disks7_char (doc : Json) :
    Perccli7Manager.check_virtual_disks (.ok doc)
      = (doc.sub "Controllers" >>= fun j => j.pyIter >>= fun ctrls =>
          (ctrls.mapM ctrlVdisks7).map
            (fun ls => (if ls.flatten.any badVdisk then ExitCode.CRITICAL
              else ExitCode.OK, ls.flatten))) := by
  have h0 : Perccli7Manager.check_virtual_disks (.ok doc)
      = (doc.sub "Controllers" >>= fun j => j.pyIter >>= fun ctrls =>
          ctrls.foldlM Perccli7Manager.vdiskCtrlStep (ExitCode.OK, [])) := rfl
  rw [h0]
  cases h1 : doc.sub "Controllers" with
  | error e => rw [except_error_bind, except_error_bind]
  | ok j =>
      rw [except_ok_bind, except_ok_bind]
      cases h2 : j.pyIter with
      | error e => rw [except_error_bind, except_error_bind]
      | ok ctrls =>
          rw [except_ok_bind, except_ok_bind,
            foldlM_checkOuter ctrlVdisks7 _ badVdisk
              (fun ec acc c => vdiskCtrlStep7_char ec acc c) ctrls
              ExitCode.OK []]
          simp

theorem check_virtual_disks8_char (doc : Json) :
    Perccli8Manager.check_virtual_disks (.ok doc)
      = (doc.sub "Controllers" >>= fun j => j.pyIter >>= fun ctrls =>
          (ctrls.mapM ctrlVdisks8).map
            (fun ls => (if ls.flatten.any badVdisk then ExitCode.CRITICAL
              else ExitCode.OK, ls.flatten))) := by
  have h0 : Perccli8Manager.check_virtual_disks (.ok doc)
      = (doc.sub "Controllers" >>= fun j => j.pyIter >>= fun ctrls =>
          ctrls.foldlM Perccli8Manager.vdiskCtrlStep (ExitCode.OK, [])) := rfl
  rw [h0]
  cases h1 : doc.sub "Controllers" with
  | error e => rw [except_error_bind, except_error_bind]
  | ok j =>
      rw [except_ok_bind, except_ok_bind]
      cases h2 : j.pyIter with
      | error e => rw [except_error_bind, except_error_bind]
      | ok ctrls =>
          rw [except_ok_bind, except_ok_bind,
            foldlM_checkOuter ctrlVdisks8 _ badVdisk
              (fun ec acc c => vdiskCtrlStep8_char ec acc c) ctrls
              ExitCode.OK []]
          simp

theorem check_phys_disks8_char (doc : Json) :
    Perccli8Manager.check_phys_disks (.ok doc)
      = (doc.sub "Controllers" >>= fun j => j.pyIter >>= fun ctrls =>
          (ctrls.mapM ctrlPdisks8).map
            (fun ls => (if ls.flatten.any badPdisk8 then ExitCode.CRITICAL
              else ExitCode.OK, ls.flatten))) := by
  have h0 : Perccli8Manager.check_phys_disks (.ok doc)
      = (doc.sub "Controllers" >>= fun j => j.pyIter >>= fun ctrls =>
          ctrls.foldlM Perccli8Manager.pdiskCtrlStep (ExitCode.OK, [])) := rfl
  rw [h0]
  cases h1 : doc.sub "Controllers" with
  | error e => rw [except_error_bind, except_error_bind]
  | ok j =>
      rw [except_ok_bind, except_ok_bind]
      cases h2 : j.pyIter with
      | error e => rw [except_error_bind, except_error_bind]
      | ok ctrls =>
          rw [except_ok_bind, except_ok_bind,
            foldlM_checkOuter ctrlPdisks8 _ badPdisk8
              (fun ec acc c => pdiskCtrlStep8_char ec acc c) ctrls
              ExitCode.OK []]
          simp

/-- The version 7 physical-disk record loop (lines 261-291) on an already
fetched document, after the two-flavor probe succeeded. -/
theorem check_phys_disks7_loop_char (doc : Json)
    (hpd : Perccli7Manager.phys_disks_data raw1 raw2 = .ok doc) :
    Perccli7Manager.check_phys_disks raw1 raw2
      = (doc.sub "Controllers" >>= fun j => j.pyIter >>= fun ctrls =>
          (ctrls.mapM ctrlPdisks7).map
            (fun ls => (if ls.flatten.any badPdisk7 then ExitCode.CRITICAL
              else ExitCode.OK, ls.flatten))) := by
  have h0 : Perccli7Manager.check_phys_disks raw1 raw2
      = (doc.sub "Controllers" >>= fun j => j.pyIter >>= fun ctrls =>
          ctrls.foldlM Perccli7Manager.pdiskCtrlStep (ExitCode.OK, [])) := by
    unfold Perccli7Manager.check_phys_disks
    rw [hpd]
  rw [h0]
  cases h1 : doc.sub "Controllers" with
  | error e => rw [except_error_bind, except_error_bind]
  | ok j =>
      rw [except_ok_bind, except_ok_bind]
      cases h2 : j.pyIter with
      | error e => rw [except_error_bind, except_error_bind]
      | ok ctrls =>
          rw [except_ok_bind, except_ok_bind,
            foldlM_checkOuter ctrlPdisks7 _ badPdisk7
              (fun ec acc c => pdiskCtrlStep7_char ec acc c) ctrls
              ExitCode.OK []]
          simp

/-- The CRITICAL/OK verdict of a record list, characterized by a pointwise
property. -/
theorem verdict_iff {α : Type} (bad : α → Bool) (P : α → Prop)
    (hbad : ∀ i, bad i = true ↔ P i) (infos : List α) :
    ((if infos.any bad then ExitCode.CRITICAL else ExitCode.OK)
        = ExitCode.CRITICAL ↔ ∃ i ∈ infos, P i) ∧
    ((if infos.any bad then ExitCode.CRITICAL else ExitCode.OK)
        = ExitCode.OK ↔ ∀ i ∈ infos, ¬ P i) := by
  cases hb : infos.any bad
  · have hall : ∀ i ∈ infos, ¬ P i := by
      intro i hi hP
      have hany : infos.any bad = true :=
        List.any_eq_true.mpr ⟨i, hi, (hbad i).mpr hP⟩
      rw [hb] at hany
      exact Bool.false_ne_true hany
    constructor
    · show ExitCode.OK = ExitCode.CRITICAL ↔ ∃ i ∈ infos, P i
      constructor
      · intro h; exact absurd h (by decide)
      · intro h; rcases h with ⟨i, hi, hP⟩; exact absurd hP (hall i hi)
    · show ExitCode.OK = ExitCode.OK ↔ ∀ i ∈ infos, ¬ P i
      exact ⟨fun _ => hall, fun _ => rfl⟩
  · have hex : ∃ i ∈ infos, P i := by
      rcases List.any_eq_true.mp hb with ⟨x, hx, hbx⟩
      exact ⟨x, hx, (hbad x).mp hbx⟩
    constructor
    · show ExitCode.CRITICAL = ExitCode.CRITICAL ↔ ∃ i ∈ infos, P i
      exact ⟨fun _ => hex, fun _ => rfl⟩
    · show ExitCode.CRITICAL = ExitCode.OK ↔ ∀ i ∈ infos, ¬ P i
      constructor
      · intro h; exact absurd h (by decide)
      · intro hall; rcases hex with ⟨i, hi, hP⟩; exact absurd hP (hall i hi)

theorem badController_iff (i : ControllerInfo) :
    badController i = true ↔
      i.status ≠ Json.str "Optimal" ∨ ∃ b ∈ i.bbu, b ≠ Json.str "Optimal" := by
  simp [badController]

theorem badVdisk_iff (i : VdiskInfo) :
    badVdisk i = true ↔ i.status ≠ Json.str "Optl" := by
  simp [badVdisk]

theorem badPdisk7_iff (i : PdiskInfo) :
    badPdisk7 i = true ↔ i.status ∉ [Json.str "Onln", Json.str "GHS"] := by
  simp [badPdisk7]

theorem badPdisk8_iff (i : PdiskInfo) :
    badPdisk8 i = true ↔
      i.status ∉ [Json.str "Online", Json.str "Good"] := by
  simp [badPdisk8]

theorem check_severity7c (raw : Except String Json) (ec : ExitCode)
    (infos : List ControllerInfo)
    (h : Perccli7Manager.check_controllers raw = .ok (ec, infos)) :
    ec = ExitCode.OK ∨ ec = ExitCode.CRITICAL := by
  cases raw with
  | error m =>
      have hv : Perccli7Manager.check_controllers (.error m)
          = .ok (ExitCode.CRITICAL, []) := rfl
      rw [hv] at h
      injection h with hpair
      injection hpair with h1 h2
      exact Or.inr h1.symm
  | ok doc =>
      rw [check_controllers7_char doc] at h
      rcases except_bind_ok.mp h with ⟨j, _, h⟩
      rcases except_bind_ok.mp h with ⟨ctrls, _, h⟩
      rcases except_map_ok.mp h with ⟨l, _, hpair⟩
      cases hb : l.any badController <;> rw [hb] at hpair
      · exact Or.inl (congrArg Prod.fst hpair).symm
      · exact Or.inr (congrArg Prod.fst hpair).symm

theorem check_severity8c (raw : Except String Json) (ec : ExitCode)
    (infos : List ControllerInfo)
    (h : Perccli8Manager.check_controllers raw = .ok (ec, infos)) :
    ec = ExitCode.OK ∨ ec = ExitCode.CRITICAL := by
  cases raw with
  | error m =>
      have hv : Perccli8Manager.check_controllers (.error m)
          = .ok (ExitCode.CRITICAL, []) := rfl
      rw [hv] at h
      injection h with hpair
      injection hpair with h1 h2
      exact Or.inr h1.symm
  | ok doc =>
      rw [check_controllers8_char doc] at h
      rcases except_bind_ok.mp h with ⟨j, _, h⟩
      rcases except_bind_ok.mp h with ⟨ctrls, _, h⟩
      rcases except_map_ok.mp h with ⟨l, _, hpair⟩
      cases hb : l.any badController <;> rw [hb] at hpair
      · exact Or.inl (congrArg Prod.fst hpair).symm
      · exact Or.inr (congrArg Prod.fst hpair).symm

theorem check_severity7v (raw : Except String Json) (ec : ExitCode)
    (infos : List VdiskInfo)
    (h : Perccli7Manager.check_virtual_disks raw = .ok (ec, infos)) :
    ec = ExitCode.OK ∨ ec = ExitCode.CRITICAL := by
  cases raw with
  | error m =>
      have hv : Perccli7Manager.check_virtual_disks (.error m)
          = .ok (ExitCode.CRITICAL, []) := rfl
      rw [hv] at h
      injection h with hpair
      injection hpair with h1 h2
      exact Or.inr h1.symm
  | ok doc =>
      rw [check_virtual_disks7_char doc] at h
      rcases except_bind_ok.mp h with ⟨j, _, h⟩
      rcases except_bind_ok.mp h with ⟨ctrls, _, h⟩
      rcases except_map_ok.mp h with ⟨ls, _, hpair⟩
      cases hb : ls.flatten.any badVdisk <;> rw [hb] at hpair
      · exact Or.inl (congrArg Prod.fst hpair).symm
      · exact Or.inr (congrArg Prod.fst hpair).symm

theorem check_severity8v (raw : Except String Json) (ec : ExitCode)
    (infos : List VdiskInfo)
    (h : Perccli8Manager.check_virtual_disks raw = .ok (ec, infos)) :
    ec = ExitCode.OK ∨ ec = ExitCode.CRITICAL := by
  cases raw with
  | error m =>
      have hv : Perccli8Manager.check_virtual_disks (.error m)
          = .ok (ExitCode.CRITICAL, []) := rfl
      rw [hv] at h
      injection h with hpair
      injection hpair with h1 h2
      exact Or.inr h1.symm
  | ok doc =>
      rw [check_virtual_disks8_char doc] at h
      rcases except_bind_ok.mp h with ⟨j, _, h⟩
      rcases except_bind_ok.mp h with ⟨ctrls, _, h⟩
      rcases except_map_ok.mp h with ⟨ls, _, hpair⟩
      cases hb : ls.flatten.any badVdisk <;> rw [hb] at hpair
      · exact Or.inl (congrArg Prod.fst hpair).symm
      · exact Or.inr (congrArg Prod.fst hpair).symm

theorem check_severity8p (raw : Except String Json) (ec : ExitCode)
    (infos : List PdiskInfo)
    (h : Perccli8Manager.check_phys_disks raw = .ok (ec, infos)) :
    ec = ExitCode.OK ∨ ec = ExitCode.CRITICAL := by
  cases raw with
  | error m =>
      have hv : Perccli8Manager.check_phys_disks (.error m)
          = .ok (ExitCode.CRITICAL, []) := rfl
      rw [hv] at h
      injection h with hpair
      injection hpair with h1 h2
      exact Or.inr h1.symm
  | ok doc =>
      rw [check_phys_disks8_char doc] at h
      rcases except_bind_ok.mp h with ⟨j, _, h⟩
      rcases except_bind_ok.mp h with ⟨ctrls, _, h⟩
      rcases except_map_ok.mp h with ⟨ls, _, hpair⟩
      cases hb : ls.flatten.any badPdisk8 <;> rw [hb] at hpair
      · exact Or.inl (congrArg Prod.fst hpair).symm
      · exact Or.inr (congrArg Prod.fst hpair).symm

theorem check_severity7p (raw1 raw2 : Except String Json) (ec : ExitCode)
    (infos : List PdiskInfo)
    (h : Perccli7Manager.check_phys_disks raw1 raw2 = .ok (ec, infos)) :
    ec = ExitCode.OK ∨ ec = ExitCode.CRITICAL := by
  cases hpd : Perccli7Manager.phys_disks_data raw1 raw2 with
  | error e =>
      cases e with
      | jsonCommandError m =>
          have hv : Perccli7Manager.check_phys_disks raw1 raw2
              = .ok (ExitCode.CRITICAL, []) := by
            unfold Perccli7Manager.check_phys_disks; rw [hpd]
          rw [hv] at h
          injection h with hpair
          injection hpair with h1 h2
          exact Or.inr h1.symm
      | keyError =>
          have hv : Perccli7Manager.check_phys_disks raw1 raw2
              = .ok (ExitCode.CRITICAL, []) := by
            unfold Perccli7Manager.check_phys_disks; rw [hpd]
          rw [hv] at h
          injection h with hpair
          injection hpair with h1 h2
          exact Or.inr h1.symm
      | typeError =>
          have hv : Perccli7Manager.check_phys_disks raw1 raw2
              = .error .typeError := by
            unfold Perccli7Manager.check_phys_disks; rw [hpd]
          rw [hv] at h
          exact absurd h (by simp)
      | indexError =>
          have hv : Perccli7Manager.check_phys_disks raw1 raw2
              = .error .indexError := by
            unfold Perccli7Manager.check_phys_disks; rw [hpd]
          rw [hv] at h
          exact absurd h (by simp)
      | attributeError =>
          have hv : Perccli7Manager.check_phys_disks raw1 raw2
              = .error .attributeError := by
            unfold Perccli7Manager.check_phys_disks; rw [hpd]
          rw [hv] at h
          exact absurd h (by simp)
      | runtimeError m =>
          have hv : Perccli7Manager.check_phys_disks raw1 raw2
              = .error (.runtimeError m) := by
            unfold Perccli7Manager.check_phys_disks; rw [hpd]
          rw [hv] at h
          exact absurd h (by simp)
  | ok doc =>
      rw [check_phys_disks7_loop_char doc hpd] at h
      rcases except_bind_ok.mp h with ⟨j, _, h⟩
      rcases except_bind_ok.mp h with ⟨ctrls, _, h⟩
      rcases except_map_ok.mp h with ⟨ls, _, hpair⟩
      cases hb : ls.flatten.any badPdisk7 <;> rw [hb] at hpair
      · exact Or.inl (congrArg Prod.fst hpair).symm
      · exact Or.inr (congrArg Prod.fst hpair).symm

/-- C2: for every run that reaches the aggregation step and every combination
of the three category severities, main returns the maximum of the controller,
virtual-disk and physical-disk severities, and the ExitCode integer mapping
is OK=0, WARNING=1, CRITICAL=2, UNKNOWN=3. -/
theorem C2_main_exit_is_max (c v p : ExitCode) (lc : List ControllerInfo)
    (lv : List VdiskInfo) (lp : List PdiskInfo) :
    main_result (.ok (c, lc)) (.ok (v, lv)) (.ok (p, lp))
        = .ok (main_exit_code c v p)
      ∧ (main_exit_code c v p).val = max c.val (max v.val p.val)
      ∧ ExitCode.OK.val = 0 ∧ ExitCode.WARNING.val = 1
      ∧ ExitCode.CRITICAL.val = 2 ∧ ExitCode.UNKNOWN.val = 3 := by
  refine ⟨rfl, ?_, rfl, rfl, rfl, rfl⟩
  cases c <;> cases v <;> cases p <;> decide

/-- C10: every category check of both adapters returns only OK or CRITICAL
as its severity, so any run that reaches aggregation exits with code 0 or 2,
never 1 or 3. -/
theorem C10_only_ok_or_critical :
    (∀ raw ec infos,
       Perccli7Manager.check_controllers raw = .ok (ec, infos) →
       ec = ExitCode.OK ∨ ec = ExitCode.CRITICAL) ∧
    (∀ raw ec infos,
       Perccli7Manager.check_virtual_disks raw = .ok (ec, infos) →
       ec = ExitCode.OK ∨ ec = ExitCode.CRITICAL) ∧
    (∀ raw1 raw2 ec infos,
       Perccli7Manager.check_phys_disks raw1 raw2 = .ok (ec, infos) →
       ec = ExitCode.OK ∨ ec = ExitCode.CRITICAL) ∧
    (∀ raw ec infos,
       Perccli8Manager.check_controllers raw = .ok (ec, infos) →
       ec = ExitCode.OK ∨ ec = ExitCode.CRITICAL) ∧
    (∀ raw ec infos,
       Perccli8Manager.check_virtual_disks raw = .ok (ec, infos) →
       ec = ExitCode.OK ∨ ec = ExitCode.CRITICAL) ∧
    (∀ raw ec infos,
       Perccli8Manager.check_phys_disks raw = .ok (ec, infos) →
       ec = ExitCode.OK ∨ ec = ExitCode.CRITICAL) ∧
    (∀ cr vr pr : ExitCode,
       (cr = ExitCode.OK ∨ cr = ExitCode.CRITICAL) →
       (vr = ExitCode.OK ∨ vr = ExitCode.CRITICAL) →
       (pr = ExitCode.OK ∨ pr = ExitCode.CRITICAL) →
       (main_exit_code cr vr pr).val = 0 ∨
         (main_exit_code cr vr pr).val = 2) := by
  refine ⟨check_severity7c, check_severity7v, check_severity7p,
    check_severity8c, check_severity8v, check_severity8p, ?_⟩
  intro cr vr pr hc hv hp
  rcases hc with rfl | rfl <;> rcases hv with rfl | rfl <;>
    rcases hp with rfl | rfl <;> decide

/-- C10 witness: the version 7 controller severity conjunct applied to a
failed raw query, and the aggregation conjunct at concrete severities. -/
theorem C10_only_ok_or_critical_witness :
    (ExitCode.CRITICAL = ExitCode.OK ∨ ExitCode.CRITICAL = ExitCode.CRITICAL) ∧
    ((main_exit_code ExitCode.OK ExitCode.CRITICAL ExitCode.OK).val = 0 ∨
      (main_exit_code ExitCode.OK ExitCode.CRITICAL ExitCode.OK).val = 2) :=
  ⟨C10_only_ok_or_critical.1 (.error "boom") ExitCode.CRITICAL [] rfl,
   C10_only_ok_or_critical.2.2.2.2.2.2 ExitCode.OK ExitCode.CRITICAL
     ExitCode.OK (Or.inl rfl) (Or.inr rfl) (Or.inl rfl)⟩

theorem flat_ok_inv {α : Type} {doc : Json} {ec : ExitCode} {infos : List α}
    {p : Json → Except PyErr α} {bad : α → Bool}
    (h : (doc.sub "Controllers" >>= fun j => j.pyIter >>= fun ctrls =>
          (ctrls.mapM p).map
            (fun l => (if l.any bad then ExitCode.CRITICAL
              else ExitCode.OK, l)))
        = .ok (ec, infos)) :
    ec = if infos.any bad then ExitCode.CRITICAL else ExitCode.OK := by
  rcases except_bind_ok.mp h with ⟨j, _, h⟩
  rcases except_bind_ok.mp h with ⟨ctrls, _, h⟩
  rcases except_map_ok.mp h with ⟨l, _, hpair⟩
  cases hpair
  rfl

theorem nested_ok_inv {α : Type} {doc : Json} {ec : ExitCode} {infos : List α}
    {produce : Json → Except PyErr (List α)} {bad : α → Bool}
    (h : (doc.sub "Controllers" >>= fun j => j.pyIter >>= fun ctrls =>
          (ctrls.mapM produce).map
            (fun ls => (if ls.flatten.any bad then ExitCode.CRITICAL
              else ExitCode.OK, ls.flatten)))
        = .ok (ec, infos)) :
    ec = if infos.any bad then ExitCode.CRITICAL else ExitCode.OK := by
  rcases except_bind_ok.mp h with ⟨j, _, h⟩
  rcases except_bind_ok.mp h with ⟨ctrls, _, h⟩
  rcases except_map_ok.mp h with ⟨ls, _, hpair⟩
  cases hpair
  rfl

theorem controller_verdict_shape {ec : ExitCode} {infos : List ControllerInfo}
    (hec : ec = if infos.any badController then ExitCode.CRITICAL
      else ExitCode.OK) :
    (ec = ExitCode.CRITICAL ↔ ∃ i ∈ infos,
        i.status ≠ Json.str "Optimal" ∨ ∃ b ∈ i.bbu, b ≠ Json.str "Optimal") ∧
    (ec = ExitCode.OK ↔ ∀ i ∈ infos,
        i.status = Json.str "Optimal" ∧ ∀ b ∈ i.bbu, b = Json.str "Optimal") := by
  subst hec
  obtain ⟨h1, h2⟩ := verdict_iff badController _ badController_iff infos
  refine ⟨h1, h2.trans ?_⟩
  constructor
  · intro hall i hi
    have hni := hall i hi
    push_neg at hni
    exact hni
  · intro hpos i hi
    push_neg
    exact hpos i hi

theorem vdisk_verdict_shape {ec : ExitCode} {infos : List VdiskInfo}
    (hec : ec = if infos.any badVdisk then ExitCode.CRITICAL
      else ExitCode.OK) :
    (ec = ExitCode.CRITICAL ↔ ∃ i ∈ infos, i.status ≠ Json.str "Optl") ∧
    (ec = ExitCode.OK ↔ ∀ i ∈ infos, i.status = Json.str "Optl") := by
  subst hec
  obtain ⟨h1, h2⟩ := verdict_iff badVdisk _ badVdisk_iff infos
  refine ⟨h1, h2.trans ?_⟩
  constructor
  · intro hall i hi
    have hni := hall i hi
    push_neg at hni
    exact hni
  · intro hpos i hi
    push_neg
    exact hpos i hi

theorem pdisk7_verdict_shape {ec : ExitCode} {infos : List PdiskInfo}
    (hec : ec = if infos.any badPdisk7 then ExitCode.CRITICAL
      else ExitCode.OK) :
    (ec = ExitCode.CRITICAL ↔ ∃ i ∈ infos,
        i.status ∉ [Json.str "Onln", Json.str "GHS"]) ∧
    (ec = ExitCode.OK ↔ ∀ i ∈ infos,
        i.status ∈ [Json.str "Onln", Json.str "GHS"]) := by
  subst hec
  obtain ⟨h1, h2⟩ := verdict_iff badPdisk7 _ badPdisk7_iff infos
  refine ⟨h1, h2.trans ?_⟩
  constructor
  · intro hall i hi
    have hni := hall i hi
    push_neg at hni
    exact hni
  · intro hpos i hi
    push_neg
    exact hpos i hi

theorem pdisk8_verdict_shape {ec : ExitCode} {infos : List PdiskInfo}
    (hec : ec = if infos.any badPdisk8 then ExitCode.CRITICAL
      else ExitCode.OK) :
    (ec = ExitCode.CRITICAL ↔ ∃ i ∈ infos,
        i.status ∉ [Json.str "Online", Json.str "Good"]) ∧
    (ec = ExitCode.OK ↔ ∀ i ∈ infos,
        i.status ∈ [Json.str "Online", Json.str "Good"]) := by
  subst hec
  obtain ⟨h1, h2⟩ := verdict_iff badPdisk8 _ badPdisk8_iff infos
  refine ⟨h1, h2.trans ?_⟩
  constructor
  · intro hall i hi
    have hni := hall i hi
    push_neg at hni
    exact hni
  · intro hpos i hi
    push_neg
    exact hpos i hi

/-- C3: for every well-formed controller document in either schema version,
check_controllers returns CRITICAL exactly when some controller status or
some backup-energy-unit status differs from Optimal, and OK exactly when all
of them equal Optimal. -/
theorem C3_controller_verdict :
    (∀ doc ec infos,
       Perccli7Manager.check_controllers (.ok doc) = .ok (ec, infos) →
       ((ec = ExitCode.CRITICAL ↔ ∃ i ∈ infos,
           i.status ≠ Json.str "Optimal" ∨
             ∃ b ∈ i.bbu, b ≠ Json.str "Optimal") ∧
        (ec = ExitCode.OK ↔ ∀ i ∈ infos,
           i.status = Json.str "Optimal" ∧
             ∀ b ∈ i.bbu, b = Json.str "Optimal"))) ∧
    (∀ doc ec infos,
       Perccli8Manager.check_controllers (.ok doc) = .ok (ec, infos) →
       ((ec = ExitCode.CRITICAL ↔ ∃ i ∈ infos,
           i.status ≠ Json.str "Optimal" ∨
             ∃ b ∈ i.bbu, b ≠ Json.str "Optimal") ∧
        (ec = ExitCode.OK ↔ ∀ i ∈ infos,
           i.status = Json.str "Optimal" ∧
             ∀ b ∈ i.bbu, b = Json.str "Optimal"))) := by
  constructor
  · intro doc ec infos h
    rw [check_controllers7_char doc] at h
    exact controller_verdict_shape (flat_ok_inv h)
  · intro doc ec infos h
    rw [check_controllers8_char doc] at h
    exact controller_verdict_shape (flat_ok_inv h)

/-- C4: for every well-formed virtual-disk document in either schema version,
check_virtual_disks returns CRITICAL exactly when some extracted record has a
status other than Optl, and OK exactly when every record status is Optl. -/
theorem C4_vdisk_verdict :
    (∀ doc ec infos,
       Perccli7Manager.check_virtual_disks (.ok doc) = .ok (ec, infos) →
       ((ec = ExitCode.CRITICAL ↔ ∃ i ∈ infos, i.status ≠ Json.str "Optl") ∧
        (ec = ExitCode.OK ↔ ∀ i ∈ infos, i.status = Json.str "Optl"))) ∧
    (∀ doc ec infos,
       Perccli8Manager.check_virtual_disks (.ok doc) = .ok (ec, infos) →
       ((ec = ExitCode.CRITICAL ↔ ∃ i ∈ infos, i.status ≠ Json.str "Optl") ∧
        (ec = ExitCode.OK ↔ ∀ i ∈ infos, i.status = Json.str "Optl"))) := by
  constructor
  · intro doc ec infos h
    rw [check_virtual_disks7_char doc] at h
    exact vdisk_verdict_shape (nested_ok_inv h)
  · intro doc ec infos h
    rw [check_virtual_disks8_char doc] at h
    exact vdisk_verdict_shape (nested_ok_inv h)

/-- C5: for every well-formed physical-disk document, check_phys_disks
returns CRITICAL exactly when some extracted record status is outside the
known-good set of its version (Onln/GHS for version 7, Online/Good for
version 8), and OK exactly when every record status is in that set. -/
theorem C5_pdisk_verdict :
    (∀ raw1 raw2 doc ec infos,
       Perccli7Manager.phys_disks_data raw1 raw2 = .ok doc →
       Perccli7Manager.check_phys_disks raw1 raw2 = .ok (ec, infos) →
       ((ec = ExitCode.CRITICAL ↔ ∃ i ∈ infos,
           i.status ∉ [Json.str "Onln", Json.str "GHS"]) ∧
        (ec = ExitCode.OK ↔ ∀ i ∈ infos,
           i.status ∈ [Json.str "Onln", Json.str "GHS"]))) ∧
    (∀ doc ec infos,
       Perccli8Manager.check_phys_disks (.ok doc) = .ok (ec, infos) →
       ((ec = ExitCode.CRITICAL ↔ ∃ i ∈ infos,
           i.status ∉ [Json.str "Online", Json.str "Good"]) ∧
        (ec = ExitCode.OK ↔ ∀ i ∈ infos,
           i.status ∈ [Json.str "Online", Json.str "Good"]))) := by
  constructor
  · intro raw1 raw2 doc ec infos hpd h
    rw [check_phys_disks7_loop_char doc hpd] at h
    exact pdisk7_verdict_shape (nested_ok_inv h)
  · intro doc ec infos h
    rw [check_phys_disks8_char doc] at h
    exact pdisk8_verdict_shape (nested_ok_inv h)

/-- A healthy version 7 controller document. -/
def doc7ctrl : Json := Json.obj [("Controllers", Json.arr [Json.obj [
  ("Command Status", Json.obj [("Controller", Json.num 0)]),
  ("Response Data", Json.obj [
    ("Status", Json.obj [("Controller Status", Json.str "Optimal")]),
    ("Basics", Json.obj [("Model", Json.str "PERC H740P Adapter")]),
    ("HwCfg", Json.obj [
      ("On Board Memory Size", Json.str "8192MB"),
      ("Ctrl temperature(Degree Celsius)", Json.num 50)]),
    ("Version", Json.obj [("Firmware Version", Json.str "51.13.0-3485")]),
    ("BBU_Info", Json.arr [Json.obj [("State", Json.str "Optimal")]])])]])]

/-- The record extracted from doc7ctrl. -/
def rec7ctrl : ControllerInfo :=
  ⟨Json.str "C0", Json.str "Optimal", Json.str "PERC H740P Adapter",
   Json.str "8192MB", Json.num 50, Json.str "51.13.0-3485",
   [Json.str "Optimal"]⟩

/-- A healthy version 7 virtual-disk document. -/
def doc7vd : Json := Json.obj [("Controllers", Json.arr [Json.obj [
  ("Command Status", Json.obj [("Controller", Json.num 0)]),
  ("Response Data", Json.obj [
    ("/c0/v0", Json.arr [Json.obj [
      ("DG/VD", Json.str "0/0"),
      ("TYPE", Json.str "RAID1"),
      ("Size", Json.str "446.625 GB"),
      ("State", Json.str "Optl")]]),
    ("VD0 Properties", Json.obj [
      ("Strip Size", Json.str "64 KB"),
      ("OS Drive Name", Json.str "/dev/sda")])])]])]

/-- The record extracted from doc7vd. -/
def rec7vd : VdiskInfo :=
  ⟨Json.str "C0 V0/0", Json.str "RAID1", Json.str "446.625 GB",
   Json.str "64 KB", Json.str "Optl", Json.str "/dev/sda"⟩

/-- The drive block list of the version 7 physical-disk fixture. -/
def doc7pdDriveArr : Json := Json.arr [Json.obj [
  ("EID:Slt", Json.str "32:0"),
  ("Intf", Json.str "SAS"),
  ("Med", Json.str "HDD"),
  ("Model", Json.str "ST1200MM0099"),
  ("Size", Json.str "1.089 TB"),
  ("State", Json.str "Onln")]]

/-- The Response Data block of the version 7 physical-disk fixture. -/
def doc7pdResp : Json := Json.obj [
  ("Drive /c0/e32/s0", doc7pdDriveArr),
  ("Drive /c0/e32/s0 - Detailed Information", Json.obj [
    ("Drive /c0/e32/s0 Device attributes", Json.obj [
      ("Link Speed", Json.str "12.0Gb/s")]),
    ("Drive /c0/e32/s0 State", Json.obj [
      ("Drive Temperature", Json.str " 32C (89.60 F)")])])]

/-- The controller block of the version 7 physical-disk fixture. -/
def doc7pdCtrl : Json := Json.obj [
  ("Command Status", Json.obj [
    ("Controller", Json.num 0), ("Status", Json.str "Success")]),
  ("Response Data", doc7pdResp)]

/-- A healthy version 7 physical-disk document with a Success marker. -/
def doc7pd : Json := Json.obj [("Controllers", Json.arr [doc7pdCtrl])]

/-- The record extracted from doc7pd: note the stripped temperature. -/
def rec7pd : PdiskInfo :=
  ⟨Json.str "C0 P32:0", Json.str "SAS HDD", Json.str "ST1200MM0099",
   Json.str "1.089 TB", Json.str "Onln", Json.str "12.0Gb/s",
   Json.str "32C (89.60 F)"⟩

/-- A version 7 probe response whose embedded status marker is not Success. -/
def doc7pdFail : Json := Json.obj [("Controllers", Json.arr [Json.obj [
  ("Command Status", Json.obj [("Status", Json.str "Failed")])]])]

/-- A healthy version 8 controller document. -/
def doc8ctrl : Json := Json.obj [("Controllers", Json.arr [Json.obj [
  ("Command Status", Json.obj [("Controller", Json.num 0)]),
  ("Response Data", Json.obj [
    ("Status", Json.obj [("Controller Status", Json.str "Optimal")]),
    ("Basics", Json.obj [("Product Name", Json.str "PERC H965i Front")]),
    ("HwCfg", Json.obj [
      ("DDR Memory Size(MiB)", Json.num 8192),
      ("Chip temperature(C)", Json.num 55)]),
    ("Version", Json.obj [("Firmware Version", Json.str "8.4.0.0.18")]),
    ("Energy Pack Info", Json.arr [Json.obj [
      ("Status", Json.str "Optimal")]])])]])]

/-- The record extracted from doc8ctrl. -/
def rec8ctrl : ControllerInfo :=
  ⟨Json.str "C0", Json.str "Optimal", Json.str "PERC H965i Front",
   Json.num 8192, Json.num 55, Json.str "8.4.0.0.18", [Json.str "Optimal"]⟩

/-- A healthy version 8 virtual-disk document. -/
def doc8vd : Json := Json.obj [("Controllers", Json.arr [Json.obj [
  ("Command Status", Json.obj [("Controller", Json.num 0)]),
  ("Response Data", Json.obj [
    ("Virtual Drives", Json.arr [Json.obj [
      ("VD Info", Json.obj [
        ("DG/VD", Json.str "0/239"),
        ("TYPE", Json.str "RAID1"),
        ("Size", Json.str "446.625 GB"),
        ("State", Json.str "Optl")]),
      ("VD Properties", Json.obj [
        ("Strip Size", Json.str "64 KB"),
        ("OS Drive Name", Json.str "/dev/sda")])]])])]])]

/-- The record extracted from doc8vd. -/
def rec8vd : VdiskInfo :=
  ⟨Json.str "C0 V0/239", Json.str "RAID1", Json.str "446.625 GB",
   Json.str "64 KB", Json.str "Optl", Json.str "/dev/sda"⟩

/-- One drive block of the version 8 physical-disk fixture; its raw
temperature value carries surrounding whitespace. -/
def doc8pdDrive : Json := Json.obj [
  ("Drive Information", Json.obj [
    ("EID:Slt", Json.str "322:0"),
    ("Intf", Json.str "SAS"),
    ("Med", Json.str "SSD"),
    ("Model", Json.str "MZILG3T8HCLS"),
    ("Size", Json.str "3.492 TB"),
    ("Status", Json.str "Online")]),
  ("Drive Detailed Information", Json.obj [
    ("Path Information", Json.arr [Json.obj [
      ("Negotiated Speed", Json.str "22.5Gb/s")]]),
    ("Temperature(C)", Json.str " 32C ")])]

/-- The controller block of the version 8 physical-disk fixture. -/
def doc8pdCtrl : Json := Json.obj [
  ("Command Status", Json.obj [("Controller", Json.num 0)]),
  ("Response Data", Json.obj [
    ("Drives List", Json.arr [doc8pdDrive])])]

/-- A healthy version 8 physical-disk document whose raw temperature value
carries surrounding whitespace. -/
def doc8pd : Json := Json.obj [("Controllers", Json.arr [doc8pdCtrl])]

/-- The record extracted from doc8pd: the temperature keeps its whitespace. -/
def rec8pd : PdiskInfo :=
  ⟨Json.str "C0 P322:0", Json.str "SAS SSD", Json.str "MZILG3T8HCLS",
   Json.str "3.492 TB", Json.str "Online", Json.str "22.5Gb/s",
   Json.str " 32C "⟩

/-- C3 witness: the controller verdict characterization applied to concrete
healthy documents of both schema versions. -/
theorem C3_controller_verdict_witness :
    (((ExitCode.OK : ExitCode) = ExitCode.CRITICAL ↔ ∃ i ∈ [rec7ctrl],
        i.status ≠ Json.str "Optimal" ∨
          ∃ b ∈ i.bbu, b ≠ Json.str "Optimal") ∧
     ((ExitCode.OK : ExitCode) = ExitCode.OK ↔ ∀ i ∈ [rec7ctrl],
        i.status = Json.str "Optimal" ∧
          ∀ b ∈ i.bbu, b = Json.str "Optimal")) ∧
    (((ExitCode.OK : ExitCode) = ExitCode.CRITICAL ↔ ∃ i ∈ [rec8ctrl],
        i.status ≠ Json.str "Optimal" ∨
          ∃ b ∈ i.bbu, b ≠ Json.str "Optimal") ∧
     ((ExitCode.OK : ExitCode) = ExitCode.OK ↔ ∀ i ∈ [rec8ctrl],
        i.status = Json.str "Optimal" ∧
          ∀ b ∈ i.bbu, b = Json.str "Optimal")) :=
  ⟨C3_controller_verdict.1 doc7ctrl ExitCode.OK [rec7ctrl] (by rfl),
   C3_controller_verdict.2 doc8ctrl ExitCode.OK [rec8ctrl] (by rfl)⟩

/-- C4 witness: the vdisk verdict characterization applied to concrete
healthy documents of both schema versions. -/
theorem C4_vdisk_verdict_witness :
    (((ExitCode.OK : ExitCode) = ExitCode.CRITICAL ↔
        ∃ i ∈ [rec7vd], i.status ≠ Json.str "Optl") ∧
     ((ExitCode.OK : ExitCode) = ExitCode.OK ↔
        ∀ i ∈ [rec7vd], i.status = Json.str "Optl")) ∧
    (((ExitCode.OK : ExitCode) = ExitCode.CRITICAL ↔
        ∃ i ∈ [rec8vd], i.status ≠ Json.str "Optl") ∧
     ((ExitCode.OK : ExitCode) = ExitCode.OK ↔
        ∀ i ∈ [rec8vd], i.status = Json.str "Optl")) :=
  ⟨C4_vdisk_verdict.1 doc7vd ExitCode.OK [rec7vd] (by rfl),
   C4_vdisk_verdict.2 doc8vd ExitCode.OK [rec8vd] (by rfl)⟩

/-- C5 witness: the physical-disk verdict characterization applied to
concrete healthy documents of both schema versions. -/
theorem C5_pdisk_verdict_witness :
    (((ExitCode.OK : ExitCode) = ExitCode.CRITICAL ↔ ∃ i ∈ [rec7pd],
        i.status ∉ [Json.str "Onln", Json.str "GHS"]) ∧
     ((ExitCode.OK : ExitCode) = ExitCode.OK ↔ ∀ i ∈ [rec7pd],
        i.status ∈ [Json.str "Onln", Json.str "GHS"])) ∧
    (((ExitCode.OK : ExitCode) = ExitCode.CRITICAL ↔ ∃ i ∈ [rec8pd],
        i.status ∉ [Json.str "Online", Json.str "Good"]) ∧
     ((ExitCode.OK : ExitCode) = ExitCode.OK ↔ ∀ i ∈ [rec8pd],
        i.status ∈ [Json.str "Online", Json.str "Good"])) :=
  ⟨C5_pdisk_verdict.1 (.ok doc7pd) (.error "x") doc7pd ExitCode.OK [rec7pd]
     (by rfl) (by rfl),
   C5_pdisk_verdict.2 doc8pd ExitCode.OK [rec8pd] (by rfl)⟩

/-- C1 counterexample: a parsed document missing the required Controllers key
makes Perccli7Manager.check_controllers raise KeyError instead of returning
(CRITICAL, empty list), so a missing required key does escape the adapter. -/
theorem C1_counterexample :
    Perccli7Manager.check_controllers (.ok (Json.obj []))
        = .error PyErr.keyError ∧
    Perccli7Manager.check_controllers (.ok (Json.obj []))
        ≠ .ok (ExitCode.CRITICAL, []) := by
  refine ⟨rfl, ?_⟩
  intro h
  rw [show Perccli7Manager.check_controllers (.ok (Json.obj []))
      = .error PyErr.keyError from rfl] at h
  exact absurd h (by simp)

/-- C1 amended: when the raw input is structurally unparseable as JSON, every
category check of both adapters returns (CRITICAL, empty list) and no
exception escapes the adapter.  When a required key is missing from a parsed
document, only the version 7 physical-disk probe has its KeyError caught and
converted to (CRITICAL, empty list); the other five category checks raise
the key lookup error past the adapter boundary, as the concrete documents
without the Controllers key show. -/
theorem C1_error_policy :
    (∀ msg, Perccli7Manager.check_controllers (.error msg)
        = .ok (ExitCode.CRITICAL, [])) ∧
    (∀ msg, Perccli7Manager.check_virtual_disks (.error msg)
        = .ok (ExitCode.CRITICAL, [])) ∧
    (∀ msg raw2, Perccli7Manager.check_phys_disks (.error msg) raw2
        = .ok (ExitCode.CRITICAL, [])) ∧
    (∀ msg, Perccli8Manager.check_controllers (.error msg)
        = .ok (ExitCode.CRITICAL, [])) ∧
    (∀ msg, Perccli8Manager.check_virtual_disks (.error msg)
        = .ok (ExitCode.CRITICAL, [])) ∧
    (∀ msg, Perccli8Manager.check_phys_disks (.error msg)
        = .ok (ExitCode.CRITICAL, [])) ∧
    (∀ raw1 raw2,
        Perccli7Manager.phys_disks_data raw1 raw2 = .error PyErr.keyError →
        Perccli7Manager.check_phys_disks raw1 raw2
          = .ok (ExitCode.CRITICAL, [])) ∧
    (Perccli7Manager.check_virtual_disks (.ok (Json.obj []))
        = .error PyErr.keyError) ∧
    (Perccli8Manager.check_controllers (.ok (Json.obj []))
        = .error PyErr.keyError) ∧
    (Perccli8Manager.check_virtual_disks (.ok (Json.obj []))
        = .error PyErr.keyError) ∧
    (Perccli8Manager.check_phys_disks (.ok (Json.obj []))
        = .error PyErr.keyError) := by
  refine ⟨fun msg => rfl, fun msg => rfl, fun msg raw2 => rfl, fun msg => rfl,
    fun msg => rfl, fun msg => rfl, ?_, rfl, rfl, rfl, rfl⟩
  intro raw1 raw2 h
  unfold Perccli7Manager.check_phys_disks
  rw [h]

/-- C1 witness: the KeyError guard of the version 7 physical-disk probe at a
concrete document without the Controllers key. -/
theorem C1_error_policy_witness :
    Perccli7Manager.check_phys_disks (.ok (Json.obj [])) (.error "x")
      = .ok (ExitCode.CRITICAL, []) :=
  C1_error_policy.2.2.2.2.2.2.1 (.ok (Json.obj [])) (.error "x") rfl

/-- The embedded status marker that the version 7 probe checks: the first
controller's Command Status / Status value. -/
def cmdStatusMarker (doc : Json) : Except PyErr Json := do
  (← (← (← doc.sub "Controllers").idx 0).sub "Command Status").sub "Status"

/-- C6: the version 7 physical-disk probe tries /call/eall/sall first and
uses its document exactly when its first controller's embedded Command
Status is Success (for any state of the second query); otherwise the
/call/sall document is tried under the same condition; any document the
probe returns carries a Success marker; and when both variants carry a
non-Success marker the category returns (CRITICAL, empty list). -/
theorem C6_probe_order :
    (∀ d1 raw2, cmdStatusMarker d1 = .ok (Json.str "Success") →
        Perccli7Manager.phys_disks_data (.ok d1) raw2 = .ok d1) ∧
    (∀ d1 d2 v1, cmdStatusMarker d1 = .ok v1 → v1 ≠ Json.str "Success" →
        cmdStatusMarker d2 = .ok (Json.str "Success") →
        Perccli7Manager.phys_disks_data (.ok d1) (.ok d2) = .ok d2) ∧
    (∀ raw1 raw2 d, Perccli7Manager.phys_disks_data raw1 raw2 = .ok d →
        cmdStatusMarker d = .ok (Json.str "Success")) ∧
    (∀ d1 d2 v1 v2, cmdStatusMarker d1 = .ok v1 → v1 ≠ Json.str "Success" →
        cmdStatusMarker d2 = .ok v2 → v2 ≠ Json.str "Success" →
        Perccli7Manager.check_phys_disks (.ok d1) (.ok d2)
          = .ok (ExitCode.CRITICAL, [])) := by
  have hdef : ∀ d1 raw2, Perccli7Manager.phys_disks_data (.ok d1) raw2
      = (cmdStatusMarker d1 >>= fun s1 =>
          if s1 = Json.str "Success" then pure d1
          else (json_command raw2 >>= fun dd =>
            cmdStatusMarker dd >>= fun s2 =>
              if s2 = Json.str "Success" then pure dd
              else .error (.jsonCommandError "_phys_disks_data failed"))) := by
    intro d1 raw2
    show (d1.sub "Controllers" >>= fun a => a.idx 0 >>= fun b =>
        b.sub "Command Status" >>= fun c => c.sub "Status" >>= fun s1 =>
        if s1 = Json.str "Success" then pure d1
        else (json_command raw2 >>= fun dd =>
          dd.sub "Controllers" >>= fun a2 => a2.idx 0 >>= fun b2 =>
          b2.sub "Command Status" >>= fun c2 => c2.sub "Status" >>= fun s2 =>
          if s2 = Json.str "Success" then pure dd
          else .error (.jsonCommandError "_phys_disks_data failed"))) = _
    simp only [cmdStatusMarker, bind_assoc]
  refine ⟨?_, ?_, ?_, ?_⟩
  · intro d1 raw2 hm
    rw [hdef, hm, except_ok_bind, if_pos rfl]
    rfl
  · intro d1 d2 v1 hm1 hv1 hm2
    rw [hdef, hm1, except_ok_bind, if_neg hv1,
      show json_command (.ok d2) = (.ok d2 : Except PyErr Json) from rfl,
      except_ok_bind, hm2, except_ok_bind, if_pos rfl]
    rfl
  · intro raw1 raw2 d h
    cases raw1 with
    | error m =>
        rw [show Perccli7Manager.phys_disks_data (.error m) raw2
            = .error (.jsonCommandError m) from rfl] at h
        exact absurd h (by simp)
    | ok d1 =>
        rw [hdef] at h
        cases hm1 : cmdStatusMarker d1 with
        | error e =>
            rw [hm1, except_error_bind] at h
            exact absurd h (by simp)
        | ok v1 =>
            rw [hm1, except_ok_bind] at h
            by_cases hv1 : v1 = Json.str "Success"
            · rw [if_pos hv1] at h
              injection h with hd
              rw [← hd, hm1, hv1]
            · rw [if_neg hv1] at h
              cases raw2 with
              | error m =>
                  rw [show json_command (.error m)
                      = (.error (.jsonCommandError m) : Except PyErr Json)
                      from rfl, except_error_bind] at h
                  exact absurd h (by simp)
              | ok d2 =>
                  rw [show json_command (.ok d2)
                      = (.ok d2 : Except PyErr Json) from rfl,
                    except_ok_bind] at h
                  cases hm2 : cmdStatusMarker d2 with
                  | error e =>
                      rw [hm2, except_error_bind] at h
                      exact absurd h (by simp)
                  | ok v2 =>
                      rw [hm2, except_ok_bind] at h
                      by_cases hv2 : v2 = Json.str "Success"
                      · rw [if_pos hv2] at h
                        injection h with hd
                        rw [← hd, hm2, hv2]
                      · rw [if_neg hv2] at h
                        exact absurd h (by simp)
  · intro d1 d2 v1 v2 hm1 hv1 hm2 hv2
    have hpd : Perccli7Manager.phys_disks_data (.ok d1) (.ok d2)
        = .error (.jsonCommandError "_phys_disks_data failed") := by
      rw [hdef, hm1, except_ok_bind, if_neg hv1,
        show json_command (.ok d2) = (.ok d2 : Except PyErr Json) from rfl,
        except_ok_bind, hm2, except_ok_bind, if_neg hv2]
    unfold Perccli7Manager.check_phys_disks
    rw [hpd]

/-- C6 witness: the probe order conjuncts at concrete documents with Success
and non-Success markers. -/
theorem C6_probe_order_witness :
    Perccli7Manager.phys_disks_data (.ok doc7pd) (.error "x") = .ok doc7pd ∧
    Perccli7Manager.phys_disks_data (.ok doc7pdFail) (.ok doc7pd)
      = .ok doc7pd ∧
    cmdStatusMarker doc7pd = .ok (Json.str "Success") ∧
    Perccli7Manager.check_phys_disks (.ok doc7pdFail) (.ok doc7pdFail)
      = .ok (ExitCode.CRITICAL, []) :=
  ⟨C6_probe_order.1 doc7pd (.error "x") (by rfl),
   C6_probe_order.2.1 doc7pdFail doc7pd (Json.str "Failed") (by rfl)
     (by decide) (by rfl),
   C6_probe_order.2.2.1 (.ok doc7pd) (.error "x") doc7pd (by rfl),
   C6_probe_order.2.2.2 doc7pdFail doc7pdFail (Json.str "Failed")
     (Json.str "Failed") (by rfl) (by decide) (by rfl) (by decide)⟩

theorem except_pure_ok {ε α : Type} {a b : α} :
    (pure a : Except ε α) = .ok b ↔ a = b := by
  constructor
  · intro h; injection h
  · intro h; rw [h]; rfl

theorem asStr_ok {j : Json} {s : String} (h : Json.asStr j = .ok s) :
    j = Json.str s := by
  cases j <;> simp [Json.asStr] at h
  rw [h]

/-- C7 counterexample: for the concrete version 8 document whose raw
temperature is " 32C ", the extracted record keeps the whitespace, so the
temperature field does not equal the raw value trimmed. -/
theorem C7_counterexample :
    Perccli8Manager.check_phys_disks (.ok doc8pd)
        = .ok (ExitCode.OK, [rec8pd]) ∧
    rec8pd.temp = Json.str " 32C " ∧
    Json.str " 32C " ≠ Json.str (pyStrip " 32C ") := by
  refine ⟨by rfl, rfl, by decide⟩

/-- C7 amended: the version 7 adapter stores the drive temperature stripped
of surrounding whitespace; the version 8 adapter stores the raw document
value verbatim, whitespace included. -/
theorem C7_temperature_field :
    (∀ controller resp nv info,
       Perccli7Manager.processPdisk controller resp nv = .ok info →
       ∃ s, (resp.sub (nv.1 ++ " - Detailed Information") >>= fun det =>
           det.sub (nv.1 ++ " State") >>= fun st =>
           st.sub "Drive Temperature") = .ok (Json.str s) ∧
         info.temp = Json.str (pyStrip s)) ∧
    (∀ controller pdisk info,
       Perccli8Manager.processPdisk controller pdisk = .ok info →
       ∃ v, (pdisk.sub "Drive Detailed Information" >>= fun dd =>
           dd.sub "Temperature(C)") = .ok v ∧
         info.temp = v) := by
  constructor
  · intro controller resp nv info h
    simp only [Perccli7Manager.processPdisk, except_bind_ok,
      except_pure_ok] at h
    obtain ⟨cs, hcs, cnum, hcnum, pd0, hpd0, eidslt, heid, intf, hintf,
      med, hmed, model, hmodel, size, hsize, state, hstate, det, hdet,
      da, hda, speed, hspeed, st, hst, tv, htv, tempRaw, htr, hinfo⟩ := h
    refine ⟨tempRaw, ?_, ?_⟩
    · rw [hdet, except_ok_bind, hst, except_ok_bind, htv, asStr_ok htr]
    · rw [← hinfo]
  · intro controller pdisk info h
    simp only [Perccli8Manager.processPdisk, except_bind_ok,
      except_pure_ok] at h
    obtain ⟨cs, hcs, cnum, hcnum, di1, hdi1, eidslt, heid, di2, hdi2,
      intf, hintf, di3, hdi3, med, hmed, di4, hdi4, model, hmodel,
      di5, hdi5, size, hsize, di6, hdi6, status, hstatus, dd1, hdd1,
      pi, hpi, pi0, hpi0, speed, hspeed, dd2, hdd2, temp, htemp,
      hinfo⟩ := h
    refine ⟨temp, ?_, ?_⟩
    · rw [hdd2, except_ok_bind, htemp]
    · rw [← hinfo]

/-- C7 witness: the amended temperature rule applied to the concrete drive
blocks of both versions. -/
theorem C7_temperature_field_witness :
    (∃ s, (doc7pdResp.sub ("Drive /c0/e32/s0" ++ " - Detailed Information")
        >>= fun det => det.sub ("Drive /c0/e32/s0" ++ " State") >>= fun st =>
        st.sub "Drive Temperature") = .ok (Json.str s) ∧
      rec7pd.temp = Json.str (pyStrip s)) ∧
    (∃ v, (doc8pdDrive.sub "Drive Detailed Information" >>= fun dd =>
        dd.sub "Temperature(C)") = .ok v ∧ rec8pd.temp = v) :=
  ⟨C7_temperature_field.1 doc7pdCtrl doc7pdResp
     ("Drive /c0/e32/s0", doc7pdDriveArr) rec7pd (by rfl),
   C7_temperature_field.2 doc8pdCtrl doc8pdDrive rec8pd (by rfl)⟩

/-- The version pattern of line 111 as a declarative decomposition: an
occurrence of PercCli, a newline-free gap, the fixed literal, and four
dot-separated nonempty digit runs; the first run, read as an integer, is the
captured major version. -/
def versionPatternAt (output : String) (n : Nat) : Prop :=
  ∃ pre mid g d2 d3 d4 rest : List Char,
    output.data =
      pre ++ "PercCli".data ++ mid ++ verLiteral ++ g ++
        ('.' :: d2) ++ ('.' :: d3) ++ ('.' :: d4) ++ rest ∧
    (∀ c ∈ mid, c ≠ '\n') ∧
    g ≠ [] ∧ (∀ c ∈ g, c.isDigit) ∧
    d2 ≠ [] ∧ (∀ c ∈ d2, c.isDigit) ∧
    d3 ≠ [] ∧ (∀ c ∈ d3, c.isDigit) ∧
    d4 ≠ [] ∧ (∀ c ∈ d4, c.isDigit) ∧
    n = digitsToNat g

theorem readDigitRun_some {cs ds rest : List Char}
    (h : readDigitRun cs = some (ds, rest)) :
    cs = ds ++ rest ∧ ds ≠ [] ∧ ∀ c ∈ ds, c.isDigit := by
  unfold readDigitRun at h
  cases ht : cs.takeWhile Char.isDigit with
  | nil => rw [ht] at h; exact absurd h (by simp)
  | cons a t =>
      rw [ht] at h
      injection h with hp
      injection hp with h1 h2
      subst h1
      subst h2
      refine ⟨?_, by simp, ?_⟩
      · rw [← ht]
        exact (List.takeWhile_append_dropWhile Char.isDigit cs).symm
      · intro c hc
        rw [← ht] at hc
        exact List.mem_takeWhile_imp hc

theorem expectDot_some {cs r : List Char} (h : expectDot cs = some r) :
    cs = '.' :: r := by
  cases cs with
  | nil => exact absurd h (by simp [expectDot])
  | cons c rest =>
      simp only [expectDot] at h
      by_cases hc : c = '.'
      · rw [if_pos hc] at h
        injection h with h1
        rw [hc, h1]
      · rw [if_neg hc] at h
        exact absurd h (by simp)

theorem findVerAt_sound {cs : List Char} {n : Nat}
    (h : findVerAt cs = some n) :
    ∃ g d2 d3 d4 rest : List Char,
      cs = verLiteral ++ g ++ ('.' :: d2) ++ ('.' :: d3) ++ ('.' :: d4)
        ++ rest ∧
      g ≠ [] ∧ (∀ c ∈ g, c.isDigit) ∧
      d2 ≠ [] ∧ (∀ c ∈ d2, c.isDigit) ∧
      d3 ≠ [] ∧ (∀ c ∈ d3, c.isDigit) ∧
      d4 ≠ [] ∧ (∀ c ∈ d4, c.isDigit) ∧
      n = digitsToNat g := by
  unfold findVerAt at h
  by_cases hp : verLiteral.isPrefixOf cs
  case neg => rw [if_neg hp] at h; exact absurd h (by simp)
  rw [if_pos hp] at h
  obtain ⟨t, ht⟩ := List.isPrefixOf_iff_prefix.mp hp
  have hdrop : cs.drop verLiteral.length = t := by
    rw [← ht]
    exact List.drop_left _ _
  rw [hdrop] at h
  simp only [Option.bind_eq_some, Option.map_eq_some'] at h
  obtain ⟨⟨g, r1⟩, hg, r2, hdot1, ⟨dd2, r3⟩, h2, r4, hdot2, ⟨dd3, r5⟩, h3,
    r6, hdot3, ⟨dd4, r7⟩, h4, hn⟩ := h
  dsimp only at hdot1 hdot2 hdot3 hn
  obtain ⟨hgt, hgne, hgd⟩ := readDigitRun_some hg
  obtain ⟨h2t, h2ne, h2d⟩ := readDigitRun_some h2
  obtain ⟨h3t, h3ne, h3d⟩ := readDigitRun_some h3
  obtain ⟨h4t, h4ne, h4d⟩ := readDigitRun_some h4
  have hr1 := expectDot_some hdot1
  have hr3 := expectDot_some hdot2
  have hr5 := expectDot_some hdot3
  refine ⟨g, dd2, dd3, dd4, r7, ?_, hgne, hgd, h2ne, h2d, h3ne, h3d,
    h4ne, h4d, hn.symm⟩
  rw [← ht, hgt, hr1, h2t, hr3, h3t, hr5, h4t]
  simp [List.append_assoc]

theorem searchVerTail_sound : ∀ (cs : List Char) (n : Nat),
    searchVerTail cs = some n →
    ∃ mid tail, cs = mid ++ tail ∧ (∀ c ∈ mid, c ≠ '\n') ∧
      findVerAt tail = some n
  | [], n, h => absurd h (by simp [searchVerTail])
  | c :: rest, n, h => by
      unfold searchVerTail at h
      by_cases hc : c = '\n'
      · rw [if_pos hc] at h
        exact absurd h (by simp)
      · rw [if_neg hc] at h
        cases hs : searchVerTail rest with
        | some m =>
            rw [hs] at h
            injection h with hm
            obtain ⟨mid, tail, h1, h2, h3⟩ := searchVerTail_sound rest m hs
            refine ⟨c :: mid, tail, by simp [h1], ?_, hm ▸ h3⟩
            intro x hx
            rcases List.mem_cons.mp hx with rfl | hx2
            · exact hc
            · exact h2 x hx2
        | none =>
            rw [hs] at h
            exact ⟨[], c :: rest, rfl, by simp, h⟩

theorem searchPercCli_sound : ∀ (cs : List Char) (n : Nat),
    searchPercCli cs = some n →
    ∃ pre suffix, cs = pre ++ "PercCli".data ++ suffix ∧
      searchVerTail suffix = some n
  | [], n, h => absurd h (by simp [searchPercCli])
  | c :: rest, n, h => by
      unfold searchPercCli at h
      by_cases hp : "PercCli".data.isPrefixOf (c :: rest)
      · rw [if_pos hp] at h
        cases hs : searchVerTail ((c :: rest).drop 7) with
        | some m =>
            rw [hs] at h
            injection h with hm
            obtain ⟨t, ht⟩ := List.isPrefixOf_iff_prefix.mp hp
            have hdrop : (c :: rest).drop 7 = t := by
              rw [← ht]
              exact List.drop_left' (by rfl)
            refine ⟨[], t, by simp [← ht], ?_⟩
            rw [← hdrop]
            exact hm ▸ hs
        | none =>
            rw [hs] at h
            obtain ⟨pre, suffix, h1, h2⟩ := searchPercCli_sound rest n h
            exact ⟨c :: pre, suffix, by simp [h1, List.append_assoc], h2⟩
      · rw [if_neg hp] at h
        obtain ⟨pre, suffix, h1, h2⟩ := searchPercCli_sound rest n h
        exact ⟨c :: pre, suffix, by simp [h1, List.append_assoc], h2⟩

theorem parse_version_sound (output : String) (n : Nat)
    (h : parse_version output = .ok n) : versionPatternAt output n := by
  unfold parse_version at h
  cases hs : searchPercCli output.data with
  | none => rw [hs] at h; exact absurd h (by simp)
  | some m =>
      rw [hs] at h
      injection h with hm
      obtain ⟨pre, suffix, h1, h2⟩ := searchPercCli_sound _ _ hs
      obtain ⟨mid, tail, h3, h4, h5⟩ := searchVerTail_sound _ _ h2
      obtain ⟨g, d2, d3, d4, rest, h6, hg1, hg2, hd21, hd22, hd31, hd32,
        hd41, hd42, hgn⟩ := findVerAt_sound h5
      refine ⟨pre, mid, g, d2, d3, d4, rest, ?_, h4, hg1, hg2, hd21, hd22,
        hd31, hd32, hd41, hd42, hm ▸ hgn⟩
      rw [h1, h3, h6]
      simp [List.append_assoc]

/-- The version text of the test fixtures and of the comment on line 109. -/
def exampleVersionOutput : String :=
  "PercCli2 SAS Customization Utility Ver 008.0004.0000.0022 Apr 28, 2023"

/-- C8: parse_version returns int() of the captured major-version group
whenever it returns at all (so any returned version is backed by a real
occurrence of the fixed pattern, never a silent default); on the concrete
fixture text it returns 8 and the factory selects the version 8 adapter; and
on any output it either returns a version or raises the RuntimeError. -/
theorem C8_parse_version :
    parse_version exampleVersionOutput = .ok 8 ∧
    (∀ path, manager_factory path exampleVersionOutput
        = .ok (Manager.perccli8 path)) ∧
    (∀ output n, parse_version output = .ok n → versionPatternAt output n) ∧
    (∀ output, (∃ n, parse_version output = .ok n) ∨
        parse_version output
          = .error (.runtimeError "perccli version not parsed")) := by
  refine ⟨by rfl, fun path => by rfl, parse_version_sound, ?_⟩
  intro output
  unfold parse_version
  cases hs : searchPercCli output.data with
  | some n => exact Or.inl ⟨n, rfl⟩
  | none => exact Or.inr rfl

/-- C8 witness: soundness applied to the concrete fixture text, whose parse
yields 8. -/
theorem C8_parse_version_witness : versionPatternAt exampleVersionOutput 8 :=
  C8_parse_version.2.2.1 exampleVersionOutput 8 (by rfl)

theorem lookup_pySetattr_self (row : Row) (name : String) (v : Json) :
    (row.pySetattr name v).lookup name
      = (row.lookup name).map (fun _ => v) := by
  induction row with
  | nil => rfl
  | cons kv rest ih =>
      obtain ⟨k, w⟩ := kv
      have hmap : Row.pySetattr ((k, w) :: rest) name v
          = (if k = name then (k, v) else (k, w))
              :: Row.pySetattr rest name v := rfl
      rw [hmap]
      by_cases hk : k = name
      · rw [if_pos hk]
        subst hk
        simp [List.lookup]
      · rw [if_neg hk]
        have hbeq : (name == k) = false :=
          beq_eq_false_iff_ne.mpr (fun he => hk he.symm)
        simp [List.lookup, hbeq]
        exact ih

theorem lookup_pySetattr_other (row : Row) (name other : String) (v : Json)
    (h : other ≠ name) :
    (row.pySetattr name v).lookup other = row.lookup other := by
  induction row with
  | nil => rfl
  | cons kv rest ih =>
      obtain ⟨k, w⟩ := kv
      have hmap : Row.pySetattr ((k, w) :: rest) name v
          = (if k = name then (k, v) else (k, w))
              :: Row.pySetattr rest name v := rfl
      rw [hmap]
      by_cases hk : k = name
      · rw [if_pos hk]
        have hbeq : (other == k) = false :=
          beq_eq_false_iff_ne.mpr (fun he => h (he.trans hk))
        simp [List.lookup, hbeq]
        exact ih
      · rw [if_neg hk]
        by_cases ho : other = k
        · have hbeq : (other == k) = true := beq_iff_eq.mpr ho
          simp [List.lookup, hbeq]
        · have hbeq : (other == k) = false := beq_eq_false_iff_ne.mpr ho
          simp [List.lookup, hbeq]
          exact ih

theorem pyJoin_ok {sep : String} {xs : List Json} {s : String}
    (h : pyJoin sep xs = .ok s) :
    ∃ ss, xs = ss.map Json.str ∧ s = String.intercalate sep ss := by
  unfold pyJoin at h
  rcases except_bind_ok.mp h with ⟨ts, hts, hpure⟩
  have hs : s = String.intercalate sep ts := (except_pure_ok.mp hpure).symm
  refine ⟨ts, ?_, hs⟩
  clear h hpure hs
  induction xs generalizing ts with
  | nil =>
      rw [List.mapM_nil] at hts
      have := except_pure_ok.mp hts
      rw [← this]
      rfl
  | cons x rest ih =>
      rw [List.mapM_cons] at hts
      rcases except_bind_ok.mp hts with ⟨a, ha, hts2⟩
      rcases except_bind_ok.mp hts2 with ⟨as, has, hpure2⟩
      have hcons := except_pure_ok.mp hpure2
      rw [← hcons]
      cases x with
      | str sx =>
          have hax : sx = a := by
            simpa using ha
          rw [List.map_cons, ← hax, ih as has]
      | null => simp at ha
      | num m => simp at ha
      | arr ys => simp at ha
      | obj kvs => simp at ha

theorem mutateAttr_ok {row row' : Row} {name : String}
    (h : mutateAttr row name = .ok row') :
    (∀ other, other ≠ name → row'.lookup other = row.lookup other) ∧
    ((∃ xs, row.lookup name = some (Json.arr xs)) →
       ∃ ss, row.lookup name = some (Json.arr (ss.map Json.str)) ∧
         row'.lookup name = some (Json.str (String.intercalate "," ss))) ∧
    ((∀ xs, row.lookup name ≠ some (Json.arr xs)) → row' = row) := by
  unfold mutateAttr Row.pyGetattr at h
  cases hl : row.lookup name with
  | none =>
      rw [hl] at h
      exact absurd h (by simp [Bind.bind, Except.bind])
  | some v =>
      rw [hl, except_ok_bind] at h
      cases v with
      | arr xs =>
          rcases except_bind_ok.mp h with ⟨j, hj, hpure⟩
          have hrow' : row.pySetattr name (Json.str j) = row' :=
            except_pure_ok.mp hpure
          obtain ⟨ss, hss, hj2⟩ := pyJoin_ok hj
          subst hrow'
          refine ⟨fun other ho => lookup_pySetattr_other _ _ _ _ ho, ?_, ?_⟩
          · intro _
            refine ⟨ss, by rw [hss], ?_⟩
            rw [lookup_pySetattr_self, hl, ← hj2]
            rfl
          · intro hno
            exact absurd rfl (hno xs)
      | null =>
          have hrow' : row = row' := except_pure_ok.mp h
          subst hrow'
          refine ⟨fun _ _ => rfl, ?_, fun _ => rfl⟩
          rintro ⟨xs, hxs⟩
          exact absurd hxs (by simp)
      | num m =>
          have hrow' : row = row' := except_pure_ok.mp h
          subst hrow'
          refine ⟨fun _ _ => rfl, ?_, fun _ => rfl⟩
          rintro ⟨xs, hxs⟩
          exact absurd hxs (by simp)
      | str sx =>
          have hrow' : row = row' := except_pure_ok.mp h
          subst hrow'
          refine ⟨fun _ _ => rfl, ?_, fun _ => rfl⟩
          rintro ⟨xs, hxs⟩
          exact absurd hxs (by simp)
      | obj kvs =>
          have hrow' : row = row' := except_pure_ok.mp h
          subst hrow'
          refine ⟨fun _ _ => rfl, ?_, fun _ => rfl⟩
          rintro ⟨xs, hxs⟩
          exact absurd hxs (by simp)

theorem foldlM_mutateAttr : ∀ (headers : List String) (row row' : Row),
    headers.foldlM mutateAttr row = .ok row' →
    (∀ name, name ∉ headers → row'.lookup name = row.lookup name) ∧
    (∀ name v, name ∈ headers → row.lookup name = some v →
       (∀ xs, v ≠ Json.arr xs) → row'.lookup name = some v) ∧
    (∀ name xs, name ∈ headers → row.lookup name = some (Json.arr xs) →
       ∃ ss, xs = ss.map Json.str ∧
         row'.lookup name = some (Json.str (String.intercalate "," ss)))
  | [], row, row', h => by
      rw [List.foldlM_nil] at h
      have hr := except_pure_ok.mp h
      subst hr
      refine ⟨fun _ _ => rfl, ?_, ?_⟩
      · intro name v hmem
        exact absurd hmem (List.not_mem_nil name)
      · intro name xs hmem
        exact absurd hmem (List.not_mem_nil name)
  | hd :: hs, row, row', h => by
      rw [List.foldlM_cons] at h
      rcases except_bind_ok.mp h with ⟨r1, h1, hrest⟩
      obtain ⟨ih1, ih2, ih3⟩ := foldlM_mutateAttr hs r1 row' hrest
      obtain ⟨m1, m2, m3⟩ := mutateAttr_ok h1
      refine ⟨?_, ?_, ?_⟩
      · intro name hnm
        have hne : name ≠ hd := fun he => hnm (he ▸ List.mem_cons_self hd hs)
        have hns : name ∉ hs := fun hin => hnm (List.mem_cons_of_mem hd hin)
        rw [ih1 name hns, m1 name hne]
      · intro name v hmem hv hnonarr
        by_cases hne : name = hd
        · subst hne
          have hr1 : r1 = row := by
            apply m3
            intro xs hx
            rw [hv] at hx
            injection hx with hx2
            exact hnonarr xs hx2
          subst hr1
          by_cases hin : name ∈ hs
          · exact ih2 name v hin hv hnonarr
          · rw [ih1 name hin, hv]
        · have hin : name ∈ hs := by
            rcases List.mem_cons.mp hmem with he | hin
            · exact absurd he hne
            · exact hin
          have hv1 : r1.lookup name = some v := by
            rw [m1 name hne, hv]
          exact ih2 name v hin hv1 hnonarr
      · intro name xs hmem hv
        by_cases hne : name = hd
        · subst hne
          obtain ⟨ss, hss, hr1⟩ := m2 ⟨xs, hv⟩
          have hxs : xs = ss.map Json.str := by
            rw [hv] at hss
            injection hss with hss2
            injection hss2
          refine ⟨ss, hxs, ?_⟩
          by_cases hin : name ∈ hs
          · exact ih2 name (Json.str (String.intercalate "," ss)) hin hr1
              (fun _ hne2 => Json.noConfusion hne2)
          · rw [ih1 name hin, hr1]
        · have hin : name ∈ hs := by
            rcases List.mem_cons.mp hmem with he | hin
            · exact absurd he hne
            · exact hin
          have hv1 : r1.lookup name = some (Json.arr xs) := by
            rw [m1 name hne, hv]
          exact ih3 name xs hin hv1

theorem foldlM_render {f : Row → Except PyErr Row}
    {g : Row → Except PyErr (List String)} {hcells : List String → String}
    (step : List String × List Row → Row →
      Except PyErr (List String × List Row))
    (hstep : ∀ st row, step st row
      = (f row >>= fun r => g r >>= fun cells =>
          pure (st.1 ++ [hcells cells], st.2 ++ [r]))) :
    ∀ (rows : List Row) (st0 stf : List String × List Row),
    rows.foldlM step st0 = .ok stf →
    ∃ rs, List.Forall₂ (fun row r => f row = .ok r) rows rs ∧
      stf.2 = st0.2 ++ rs
  | [], st0, stf, h => by
      rw [List.foldlM_nil] at h
      have hst := except_pure_ok.mp h
      subst hst
      exact ⟨[], List.Forall₂.nil, by simp⟩
  | row :: rest, st0, stf, h => by
      rw [List.foldlM_cons, hstep] at h
      rcases except_bind_ok.mp h with ⟨st1, hst1, hrest⟩
      rcases except_bind_ok.mp hst1 with ⟨r, hr, hst2⟩
      rcases except_bind_ok.mp hst2 with ⟨cells, hcl, hpure⟩
      have hst1v := except_pure_ok.mp hpure
      obtain ⟨rs, hfa, hsnd⟩ := foldlM_render step hstep rest st1 stf hrest
      refine ⟨r :: rs, List.Forall₂.cons hr hfa, ?_⟩
      rw [hsnd, ← hst1v]
      simp

/-- C9 counterexample: rendering the controller table replaces the
list-valued bbu attribute in place by its comma-joined string, so the rows
after rendering differ from the rows at construction. -/
theorem C9_counterexample :
    ∃ out, format_table ["cid", "status", "model", "ram", "temp", "bbu",
        "firmware"] [rec7ctrl.toAttrs] = .ok out ∧
      out.2 ≠ [rec7ctrl.toAttrs] ∧
      out.2 = [rec7ctrl.toAttrs.pySetattr "bbu" (Json.str "Optimal")] :=
  ⟨_, rfl, by decide, by decide⟩

/-- C9 amended: rendering mutates the rows, but only in one way: every
attribute not named by a header, and every non-list attribute, keeps its
construction value, while a list-valued attribute named by a header is
replaced in place by the comma-joined string of its (string) elements. -/
theorem C9_render_mutation (headers : List String) (rows : List Row)
    (text : String) (rows' : List Row)
    (h : format_table headers rows = .ok (text, rows')) :
    List.Forall₂ (fun row row' =>
      (∀ name, name ∉ headers → row'.lookup name = row.lookup name) ∧
      (∀ name v, name ∈ headers → row.lookup name = some v →
         (∀ xs, v ≠ Json.arr xs) → row'.lookup name = some v) ∧
      (∀ name xs, name ∈ headers → row.lookup name = some (Json.arr xs) →
         ∃ ss, xs = ss.map Json.str ∧
           row'.lookup name = some (Json.str (String.intercalate "," ss))))
      rows rows' := by
  unfold format_table at h
  rcases except_bind_ok.mp h with ⟨column_widths, hw, h⟩
  dsimp only at h
  rcases except_bind_ok.mp h with ⟨st, hst, hpure⟩
  have hpair := except_pure_ok.mp hpure
  have hrows' : rows' = st.2 := (congrArg Prod.snd hpair).symm
  obtain ⟨rs, hfa, hsnd⟩ := @foldlM_render
    (fun row => headers.foldlM mutateAttr row)
    (fun r => (headers.zip column_widths).mapM (fun nw => do
      let v ← r.pyGetattr nw.1
      pure (leftJust v.pyStr nw.2)))
    (fun cells => String.intercalate " | " cells)
    _ (fun st row => rfl) rows _ st hst
  rw [List.nil_append] at hsnd
  rw [hrows', hsnd]
  refine List.Forall₂.imp ?_ hfa
  intro a b hab
  exact foldlM_mutateAttr headers a b hab

/-- C9 witness: the amended mutation rule applied to the concrete controller
table row, whose bbu list collapses to its comma-joined string. -/
theorem C9_render_mutation_witness :
    ∃ text, format_table ["cid", "status", "model", "ram", "temp", "bbu",
        "firmware"] [rec7ctrl.toAttrs]
      = .ok (text, [rec7ctrl.toAttrs.pySetattr "bbu" (Json.str "Optimal")]) ∧
    List.Forall₂ (fun row row' =>
      (∀ name, name ∉ ["cid", "status", "model", "ram", "temp", "bbu",
          "firmware"] → row'.lookup name = row.lookup name) ∧
      (∀ name v, name ∈ ["cid", "status", "model", "ram", "temp", "bbu",
          "firmware"] → row.lookup name = some v →
         (∀ xs, v ≠ Json.arr xs) → row'.lookup name = some v) ∧
      (∀ name xs, name ∈ ["cid", "status", "model", "ram", "temp", "bbu",
          "firmware"] → row.lookup name = some (Json.arr xs) →
         ∃ ss, xs = ss.map Json.str ∧
           row'.lookup name = some (Json.str (String.intercalate "," ss))))
      [rec7ctrl.toAttrs]
      [rec7ctrl.toAttrs.pySetattr "bbu" (Json.str "Optimal")] :=
  ⟨_, rfl, C9_render_mutation _ _ _ _ rfl⟩
